import Mathlib

/-!
# Verification of the ZKTeco TCP protocol client (gianged-attendance)

A shallow embedding of the binary-protocol client of the repository:

* `src/zk/protocol.rs`   — checksum, `build_packet`, `parse_response`
* `src/zk/client.rs`     — `ZkTcpClient` (connect / send_command / get_attendance)
* `src/zk/attendance.rs` — `decode_zk_timestamp`, `parse_attendance`
* `src/zk_tcp/protocol.rs`, `io.rs`, `transfer.rs`, `client.rs`, `parser.rs`
  — the second (tokio-based) implementation of the same protocol.

Bytes are modelled as `Nat` (values < 256 on the wire); machine integers as
`Nat` with explicit `% 2^w` where wrap-around matters.  Socket I/O is
modelled by an oracle: each write / frame-read / raw-read consumes the next
entry of the corresponding oracle stream restricted by the invariants the
real reader enforces.  Every packet handed to a write is recorded in an
append-only trace, which lets us state the temporal claims (device
lock/unlock bracketing, buffer release, retry counting) as facts about the
trace.
-/

namespace ZkSpec

/-! ## Little-endian byte helpers -/

/-- Bytes of a `u16` in little-endian order (`u16::to_le_bytes`). -/
def u16le (v : Nat) : List Nat := [v % 256, v / 256 % 256]

/-- Bytes of a `u32` in little-endian order (`u32::to_le_bytes`). -/
def u32le (v : Nat) : List Nat :=
  [v % 256, v / 256 % 256, v / 65536 % 256, v / 16777216 % 256]

/-- `u16::from_le_bytes` on the two bytes of `l` starting at index `i`. -/
def le16at (l : List Nat) (i : Nat) : Nat :=
  l.getD i 0 + 256 * l.getD (i + 1) 0

/-- `u32::from_le_bytes` on the four bytes of `l` starting at index `i`. -/
def le32at (l : List Nat) (i : Nat) : Nat :=
  l.getD i 0 + 256 * l.getD (i + 1) 0 + 65536 * l.getD (i + 2) 0 +
    16777216 * l.getD (i + 3) 0

/-! ## Protocol constants (`src/zk/protocol.rs`, `src/zk_tcp/types.rs`) -/

def HEADER : List Nat := [0x50, 0x50, 0x82, 0x7d]

def CMD_CONNECT : Nat := 1000
def CMD_EXIT : Nat := 1001
def CMD_DISABLEDEVICE : Nat := 1003
def CMD_ENABLEDEVICE : Nat := 1004
def CMD_GET_FREE_SIZES : Nat := 50
def CMD_ATTLOG_RRQ : Nat := 13
def CMD_PREPARE_DATA : Nat := 1500
def CMD_DATA : Nat := 1501
def CMD_FREE_DATA : Nat := 1502
def CMD_PREPARE_BUFFER : Nat := 1503
def CMD_READ_BUFFER : Nat := 1504
def CMD_ACK_OK : Nat := 2000

def HEADER_SIZE : Nat := 8
def PAYLOAD_MIN_SIZE : Nat := 8
/-- `MAX_CHUNK` of `src/zk_tcp/types.rs` (= `CHUNK_SIZE` of `src/zk/protocol.rs`). -/
def MAX_CHUNK : Nat := 0xFFC0

/-! ## Checksum (`calc_checksum` / `calculate_checksum`)

The Rust code sums the data as little-endian 16-bit words into a `u32`
(`sum = sum.wrapping_add(val)`), then folds the carries with
`while sum > 0xFFFF { sum = (sum & 0xFFFF) + (sum >> 16) }` and returns
`!sum & 0xFFFF`.  The while loop strictly decreases `sum`, so running it
with `s` units of fuel starting from `s` computes the exact fixpoint. -/

/-- One-pass-at-a-time carry fold with explicit fuel (structural recursion,
so that concrete checksums evaluate by `decide`). -/
def foldCarry : Nat → Nat → Nat
  | 0, s => s
  | fuel + 1, s => if s > 0xFFFF then foldCarry fuel (s % 65536 + s / 65536) else s

/-- The carry-fold loop of `calc_checksum`; fuel `s` always suffices because
each iteration strictly decreases the sum. -/
def foldCarryTop (s : Nat) : Nat := foldCarry s s

/-- Little-endian 16-bit word sum with `u32` wrap-around
(the `chunks(2)` loop of `calc_checksum`; a trailing lone byte contributes
just its low byte, i.e. is zero-padded). -/
def wordSumWrap : List Nat → Nat → Nat
  | [], s => s
  | [a], s => (s + a) % 4294967296
  | a :: b :: rest, s => wordSumWrap rest ((s + (a + 256 * b)) % 4294967296)

/-- `calc_checksum` of `src/zk/protocol.rs` (identical arithmetic to
`calculate_checksum` of `src/zk_tcp/protocol.rs`): ones'-complement of the
folded little-endian word sum, truncated to 16 bits (`!sum & 0xFFFF`). -/
def calc_checksum (data : List Nat) : Nat :=
  (4294967295 - foldCarryTop (wordSumWrap data 0)) % 65536

/-! ## `build_packet` and `parse_response` (`src/zk/protocol.rs`) -/

/-- `Response` of `src/zk/protocol.rs`. -/
structure Response where
  cmd : Nat
  session_id : Nat
  reply_id : Nat
  data : List Nat
deriving DecidableEq, Repr

/-- Errors of `src/zk/error.rs` (payload strings dropped; the claims only
distinguish the error kinds). -/
inductive ZkError
  | io
  | connectionFailed
  | invalidResponse
  | timeout
  | notConnected
  | noData
deriving DecidableEq, Repr

/-- `build_packet` of `src/zk/protocol.rs`: header ++ inner-size ++ inner
packet, where the checksum is computed over `cmd ++ session ++ reply ++ data`
and written into inner bytes 2–3. -/
def build_packet (cmd : Nat) (session_id : Nat) (reply_id : Nat)
    (data : List Nat) : List Nat :=
  let inner_size := 8 + data.length
  let inner := u16le cmd ++ [0, 0] ++ u16le session_id ++ u16le reply_id ++ data
  let chk_data := u16le cmd ++ u16le session_id ++ u16le reply_id ++ data
  let checksum := calc_checksum chk_data
  let inner' := (inner.set 2 (checksum % 256)).set 3 (checksum / 256 % 256)
  HEADER ++ u32le inner_size ++ inner'

/-- `parse_response` of `src/zk/protocol.rs`. -/
def parse_response (packet : List Nat) : Except ZkError Response :=
  if packet.length < 8 then .error .invalidResponse
  else if packet.take 4 ≠ HEADER then .error .invalidResponse
  else
    let payload_size := le32at packet 4
    if packet.length < 8 + payload_size then .error .invalidResponse
    else
      let payload := (packet.drop 8).take payload_size
      if payload.length < 8 then .error .invalidResponse
      else
        .ok ⟨le16at payload 0, le16at payload 4, le16at payload 6,
          payload.drop 8⟩

/-- The checksum `build_packet` stores: computed over
`cmd ++ session_id ++ reply_id ++ data` with the checksum field zeroed
(the field is simply absent from `chk_data`) and a trailing odd byte
zero-padded by the word-sum loop. -/
def packetChecksum (cmd session_id reply_id : Nat) (data : List Nat) : Nat :=
  calc_checksum (u16le cmd ++ u16le session_id ++ u16le reply_id ++ data)

theorem calc_checksum_lt (data : List Nat) : calc_checksum data < 65536 :=
  Nat.mod_lt _ (by norm_num)

/-- `build_packet`, written out byte by byte. -/
theorem build_packet_bytes (cmd session reply : Nat) (body : List Nat) :
    build_packet cmd session reply body =
      0x50 :: 0x50 :: 0x82 :: 0x7d ::
      ((8 + body.length) % 256) :: ((8 + body.length) / 256 % 256) ::
      ((8 + body.length) / 65536 % 256) :: ((8 + body.length) / 16777216 % 256) ::
      (cmd % 256) :: (cmd / 256 % 256) ::
      (packetChecksum cmd session reply body % 256) ::
      (packetChecksum cmd session reply body / 256 % 256) ::
      (session % 256) :: (session / 256 % 256) ::
      (reply % 256) :: (reply / 256 % 256) :: body := by
  simp [build_packet, packetChecksum, u16le, u32le, HEADER, List.set]

/-- C5: building a packet and parsing it back recovers command, session id,
sequence and body, and the stored checksum (inner-packet bytes 2–3 =
whole-packet bytes 10–11) equals the checksum recomputed over
`command ++ session_id ++ sequence ++ body`. -/
theorem c5_packet_roundtrip_checksum (cmd session reply : Nat) (body : List Nat)
    (hc : cmd < 65536) (hs : session < 65536) (hr : reply < 65536)
    (hlen : 8 + body.length < 4294967296) :
    parse_response (build_packet cmd session reply body) =
      .ok ⟨cmd, session, reply, body⟩ ∧
    le16at (build_packet cmd session reply body) 10 =
      calc_checksum (u16le cmd ++ u16le session ++ u16le reply ++ body) := by
  have hck := calc_checksum_lt (u16le cmd ++ u16le session ++ u16le reply ++ body)
  rw [build_packet_bytes]
  unfold packetChecksum
  set ck := calc_checksum (u16le cmd ++ u16le session ++ u16le reply ++ body) with hckdef
  constructor
  · unfold parse_response
    have h1 : ¬ ((0x50 :: 0x50 :: 0x82 :: 0x7d ::
        ((8 + body.length) % 256) :: ((8 + body.length) / 256 % 256) ::
        ((8 + body.length) / 65536 % 256) :: ((8 + body.length) / 16777216 % 256) ::
        (cmd % 256) :: (cmd / 256 % 256) :: (ck % 256) :: (ck / 256 % 256) ::
        (session % 256) :: (session / 256 % 256) ::
        (reply % 256) :: (reply / 256 % 256) :: body).length < 8) := by
      simp
    rw [if_neg h1]
    have h2 : (0x50 :: 0x50 :: 0x82 :: 0x7d ::
        ((8 + body.length) % 256) :: ((8 + body.length) / 256 % 256) ::
        ((8 + body.length) / 65536 % 256) :: ((8 + body.length) / 16777216 % 256) ::
        (cmd % 256) :: (cmd / 256 % 256) :: (ck % 256) :: (ck / 256 % 256) ::
        (session % 256) :: (session / 256 % 256) ::
        (reply % 256) :: (reply / 256 % 256) :: body).take 4 = HEADER := by
      simp [HEADER, List.take]
    rw [if_neg (by rw [h2]; simp)]
    have h3 : le32at (0x50 :: 0x50 :: 0x82 :: 0x7d ::
        ((8 + body.length) % 256) :: ((8 + body.length) / 256 % 256) ::
        ((8 + body.length) / 65536 % 256) :: ((8 + body.length) / 16777216 % 256) ::
        (cmd % 256) :: (cmd / 256 % 256) :: (ck % 256) :: (ck / 256 % 256) ::
        (session % 256) :: (session / 256 % 256) ::
        (reply % 256) :: (reply / 256 % 256) :: body) 4 = 8 + body.length := by
      simp [le32at, List.getD]
      omega
    rw [h3]
    rw [if_neg (by simp; omega)]
    have h4 : (((0x50 :: 0x50 :: 0x82 :: 0x7d ::
        ((8 + body.length) % 256) :: ((8 + body.length) / 256 % 256) ::
        ((8 + body.length) / 65536 % 256) :: ((8 + body.length) / 16777216 % 256) ::
        (cmd % 256) :: (cmd / 256 % 256) :: (ck % 256) :: (ck / 256 % 256) ::
        (session % 256) :: (session / 256 % 256) ::
        (reply % 256) :: (reply / 256 % 256) :: body : List Nat).drop 8).take
          (8 + body.length)) =
        (cmd % 256) :: (cmd / 256 % 256) :: (ck % 256) :: (ck / 256 % 256) ::
        (session % 256) :: (session / 256 % 256) ::
        (reply % 256) :: (reply / 256 % 256) :: body := by
      rw [show ((0x50 :: 0x50 :: 0x82 :: 0x7d ::
        ((8 + body.length) % 256) :: ((8 + body.length) / 256 % 256) ::
        ((8 + body.length) / 65536 % 256) :: ((8 + body.length) / 16777216 % 256) ::
        (cmd % 256) :: (cmd / 256 % 256) :: (ck % 256) :: (ck / 256 % 256) ::
        (session % 256) :: (session / 256 % 256) ::
        (reply % 256) :: (reply / 256 % 256) :: body : List Nat).drop 8) =
        ((cmd % 256) :: (cmd / 256 % 256) :: (ck % 256) :: (ck / 256 % 256) ::
        (session % 256) :: (session / 256 % 256) ::
        (reply % 256) :: (reply / 256 % 256) :: body) from rfl]
      apply List.take_of_length_le
      simp
      omega
    rw [h4]
    rw [if_neg (by simp)]
    simp only [le16at, List.getD_cons_zero, List.getD_cons_succ, Except.ok.injEq,
      Response.mk.injEq]
    refine ⟨by omega, by omega, by omega, ?_⟩
    simp [List.drop]
  · simp only [le16at, List.getD_cons_zero, List.getD_cons_succ]
    omega

/-! ## Timestamp decoding (`src/zk/attendance.rs` and `src/zk_tcp/parser.rs`)

`zk::attendance::decode_zk_timestamp` unpacks the device's packed 32-bit
timestamp with the divide/modulo cascade.  `zk_tcp::parser::parse_binary_format`
instead interprets the same 32-bit field as *seconds since
2000-01-01 00:00:00* and adds them to a `chrono::NaiveDateTime`; we model
that by converting the seconds through the proleptic Gregorian calendar
(which is exactly chrono's `NaiveDate` arithmetic). -/

/-- A broken-down local date/time `(year, month, day, hour, minute, second)`. -/
abbrev Date6 := Nat × Nat × Nat × Nat × Nat × Nat

/-- `decode_zk_timestamp` of `src/zk/attendance.rs`. -/
def decode_zk_timestamp (encoded : Nat) : Date6 :=
  let v0 := encoded
  let second := v0 % 60
  let v1 := v0 / 60
  let minute := v1 % 60
  let v2 := v1 / 60
  let hour := v2 % 24
  let v3 := v2 / 24
  let day := v3 % 31 + 1
  let v4 := v3 / 31
  let month := v4 % 12 + 1
  let v5 := v4 / 12
  let year := v5 + 2000
  (year, month, day, hour, minute, second)

/-- The inverse packing formula documented on `decode_zk_timestamp`:
`((((year-2000)*12 + month-1)*31 + day-1)*24 + hour)*60 + minute)*60 + second`. -/
def encode_zk_timestamp (y mo d h mi s : Nat) : Nat :=
  (((((y - 2000) * 12 + (mo - 1)) * 31 + (d - 1)) * 24 + h) * 60 + mi) * 60 + s

/-- Gregorian leap-year rule (chrono's calendar). -/
def isLeap (y : Nat) : Bool := (y % 4 = 0 && y % 100 ≠ 0) || y % 400 = 0

/-- Civil-from-days: the date `z` days after 1970-01-01 in the proleptic
Gregorian calendar (the standard arithmetic used by chrono's `NaiveDate`). -/
def civilFromDays (z : Nat) : Nat × Nat × Nat :=
  let z' := z + 719468
  let era := z' / 146097
  let doe := z' % 146097
  let yoe := (doe - doe / 1460 + doe / 36524 - doe / 146096) / 365
  let y := yoe + era * 400
  let doy := doe - (365 * yoe + yoe / 4 - yoe / 100)
  let mp := (5 * doy + 2) / 153
  let d := doy - (153 * mp + 2) / 5 + 1
  let m := if mp < 10 then mp + 3 else mp - 9
  (if m ≤ 2 then y + 1 else y, m, d)

/-- `NaiveDate(2000,1,1).and_hms(0,0,0) + Duration::seconds(v)` of
`src/zk_tcp/parser.rs`, broken down into calendar fields (2000-01-01 is
10957 days after 1970-01-01). -/
def naiveFromSecs2000 (v : Nat) : Date6 :=
  let (y, mo, d) := civilFromDays (v / 86400 + 10957)
  (y, mo, d, v % 86400 / 3600, v % 3600 / 60, v % 60)

/-! ## Record decoders -/

/-- `AttendanceRecord` of `src/zk/attendance.rs` (the `DateTime<Local>` is
kept as its broken-down local fields). -/
structure AttendanceRecord where
  user_id : Nat
  timestamp : Date6
deriving DecidableEq, Repr

/-- `CreateAttendanceLog` as produced by `src/zk_tcp/parser.rs`
(`source` is the constant `"device"` and is omitted). -/
structure CreateAttendanceLog where
  scanner_uid : Nat
  check_time : Date6
  verify_type : Nat
  status : Nat
deriving DecidableEq, Repr

/-- Is `b` an ASCII digit? -/
def isDigit (b : Nat) : Bool := 48 ≤ b && b ≤ 57

/-- Digits-to-number accumulator. -/
def digitsVal : List Nat → Nat → Nat
  | [], acc => acc
  | b :: rest, acc => digitsVal rest (acc * 10 + (b - 48))

/-- Rust's `str::parse::<u32>` on a byte string: an optional leading `+`,
then one or more ASCII digits, value below `2^32`.  Any byte ≥ 0x80 makes
the field either invalid UTF-8 or a non-digit character, so it also fails. -/
def parseU32Ascii (bs : List Nat) : Option Nat :=
  let digits := if bs.headD 0 = 43 then bs.tail else bs
  if digits = [] then none
  else if digits.all isDigit then
    let v := digitsVal digits 0
    if v < 4294967296 then some v else none
  else none

/-- First `0` byte in `l`, or `default` if none (`iter().position` with
`unwrap_or`). -/
def posOfZero (l : List Nat) (default : Nat) : Nat :=
  match l.findIdx? (fun b => b = 0) with
  | some i => i
  | none => default

/-- One 40-byte record of `parse_attendance` (`src/zk/attendance.rs`):
skip when the packed timestamp at offset 27–30 is zero; user id is the
null-terminated ASCII field at offsets 2–11; the decoded date must be an
existing unambiguous local time (`Local.with_ymd_and_hms(..).single()`),
modelled by the caller-supplied `tzSingle`. -/
def parseRecordZk (tzSingle : Date6 → Option Date6) (chunk : List Nat) :
    Option AttendanceRecord :=
  let encoded_ts := le32at chunk 27
  if encoded_ts = 0 then none
  else
    let dt := decode_zk_timestamp encoded_ts
    let uid_bytes := (chunk.drop 2).take 10
    let uid_end := posOfZero uid_bytes 10
    match parseU32Ascii (uid_bytes.take uid_end) with
    | none => none
    | some uid =>
      match tzSingle dt with
      | none => none
      | some t => some ⟨uid, t⟩

/-- Split a list into `chunks_exact size` chunks (any short remainder
dropped).  Structural recursion on fuel so concrete inputs evaluate by
`decide`; since every step removes `size ≥ 1` elements, fuel `l.length`
always suffices. -/
def chunksExactAux (size : Nat) : Nat → List Nat → List (List Nat)
  | 0, _ => []
  | fuel + 1, l =>
    if size = 0 then []
    else if l.length < size then []
    else l.take size :: chunksExactAux size fuel (l.drop size)

/-- `chunks_exact size` of Rust's slice API. -/
def chunksExact (size : Nat) (l : List Nat) : List (List Nat) :=
  chunksExactAux size l.length l

/-- `parse_attendance` of `src/zk/attendance.rs`: needs at least the 4-byte
prefix plus one 40-byte record, skips the 4-byte prefix, then filter-maps
over the 40-byte chunks. -/
def parse_attendance (tzSingle : Date6 → Option Date6) (data : List Nat) :
    List AttendanceRecord :=
  if data.length < 4 + 40 then []
  else (chunksExact 40 (data.drop 4)).filterMap (parseRecordZk tzSingle)

/-- ASCII whitespace (the byte-level part of Rust's `str::trim`; the user-id
fields hold ASCII, where `char::is_whitespace` coincides with these bytes). -/
def isWs (b : Nat) : Bool :=
  b = 32 || b = 9 || b = 10 || b = 13 || b = 11 || b = 12

/-- `str::trim` on a byte string. -/
def trimAscii (bs : List Nat) : List Nat :=
  ((bs.dropWhile isWs).reverse.dropWhile isWs).reverse

/-- Rust's `str::trim().parse::<i32>()` on a byte string: optional sign,
one or more ASCII digits, `i32` range. -/
def parseI32Ascii (bs0 : List Nat) : Option Int :=
  let bs := trimAscii bs0
  let signDigits : Bool × List Nat :=
    match bs with
    | 43 :: rest => (false, rest)
    | 45 :: rest => (true, rest)
    | _ => (false, bs)
  let neg := signDigits.1
  let digits := signDigits.2
  if digits = [] then none
  else if digits.all isDigit then
    let v := digitsVal digits 0
    if neg then if v ≤ 2147483648 then some (-(v : Int)) else none
    else if v ≤ 2147483647 then some (v : Int) else none
  else none

/-- `CreateAttendanceLog` produced by the binary parser of
`src/src/zk_tcp/parser.rs` (`source = "device"` omitted; `check_time` is the
UTC instant kept as broken-down fields). -/
structure CreateLogB where
  scanner_uid : Int
  check_time : Date6
  verify_type : Nat
  status : Nat
deriving DecidableEq, Repr

/-- One 40-byte record of `parse_binary_format` (`src/zk_tcp/parser.rs`):
user id is the null-terminated ASCII field in bytes 0–8 (default end 9),
parsed as `i32` after `trim`; the timestamp is the little-endian `u32` at
bytes 24–27 interpreted as seconds since 2000-01-01 00:00:00 local time;
`Local.from_local_datetime(..).single()` (then converted to UTC) is modelled
by the caller-supplied `tzSingle`.  There is no test of the timestamp field:
a zero timestamp is not skipped. -/
def parseRecordBinary (tzSingle : Date6 → Option Date6) (chunk : List Nat) :
    Option CreateLogB :=
  let uid_end := posOfZero (chunk.take 9) 9
  match parseI32Ascii (chunk.take uid_end) with
  | none => none
  | some uid =>
    let timestamp_raw := le32at chunk 24
    let naive_dt := naiveFromSecs2000 timestamp_raw
    match tzSingle naive_dt with
    | none => none
    | some t => some ⟨uid, t, chunk.getD 28 0, chunk.getD 29 0⟩

/-- `parse_binary_format` of `src/zk_tcp/parser.rs`: filter-map over the
40-byte chunks (records that fail to parse are skipped, never an error). -/
def parse_binary_format (tzSingle : Date6 → Option Date6) (data : List Nat) :
    List CreateLogB :=
  (chunksExact 40 data).filterMap (parseRecordBinary tzSingle)

/-! ### C4: timestamp decode -/

/-- C4 (amended to `zk::attendance::decode_zk_timestamp`, the packed-formula
decoder): it unpacks by the documented divide/modulo cascade, packed value 0
decodes to 2000-01-01 00:00:00, and packing a real date by the inverse
formula and decoding reproduces it.  (`zk_tcp::parser::parse_binary_format`
decodes the field differently, see the counterexample.) -/
theorem c4_decode_zk_timestamp_formula (y mo d h mi s : Nat)
    (hy : 2000 ≤ y) (hmo1 : 1 ≤ mo) (hmo : mo ≤ 12) (hd1 : 1 ≤ d) (hd : d ≤ 31)
    (hh : h < 24) (hmi : mi < 60) (hs : s < 60)
    (henc : encode_zk_timestamp y mo d h mi s < 4294967296) :
    decode_zk_timestamp 0 = (2000, 1, 1, 0, 0, 0) ∧
    (∀ v : Nat, decode_zk_timestamp v =
      (v / 60 / 60 / 24 / 31 / 12 + 2000, v / 60 / 60 / 24 / 31 % 12 + 1,
       v / 60 / 60 / 24 % 31 + 1, v / 60 / 60 % 24, v / 60 % 60, v % 60)) ∧
    decode_zk_timestamp (encode_zk_timestamp y mo d h mi s) =
      (y, mo, d, h, mi, s) := by
  refine ⟨by decide, fun v => rfl, ?_⟩
  obtain ⟨a, rfl⟩ : ∃ a, y = a + 2000 := ⟨y - 2000, by omega⟩
  obtain ⟨b, rfl⟩ : ∃ b, mo = b + 1 := ⟨mo - 1, by omega⟩
  obtain ⟨c, rfl⟩ : ∃ c, d = c + 1 := ⟨d - 1, by omega⟩
  simp only [decode_zk_timestamp, encode_zk_timestamp, Nat.add_sub_cancel,
    Prod.mk.injEq]
  omega

/-- C4 counterexample: the other record decoder in the repository,
`zk_tcp::parser::parse_binary_format`, does **not** unpack the 32-bit field
by the claimed formula: it treats it as seconds since 2000-01-01.  For
packed value 5356800 (= 62 days) the formula gives 2000-03-01 00:00:00 but
`parse_binary_format` emits 2000-03-03 00:00:00. -/
theorem c4_counterexample_parse_binary_format :
    parse_binary_format (fun dt => some dt)
        ([50, 48] ++ List.replicate 22 0 ++ [0x00, 0xbd, 0x51, 0x00] ++
          List.replicate 12 0) =
      [⟨20, (2000, 3, 3, 0, 0, 0), 0, 0⟩] ∧
    le32at ([50, 48] ++ List.replicate 22 0 ++ [0x00, 0xbd, 0x51, 0x00] ++
        List.replicate 12 0) 24 = 5356800 ∧
    decode_zk_timestamp 5356800 = (2000, 3, 1, 0, 0, 0) ∧
    (2000, 3, 3, 0, 0, 0) ≠ ((2000, 3, 1, 0, 0, 0) : Date6) := by
  decide

/-! ### C3: zero-timestamp records -/

/-- C3 (amended to `zk::attendance::parse_attendance`): a 40-byte record
whose packed timestamp field (bytes 27–30) is all zeros is skipped
regardless of its other fields, so a block consisting only of such records
decodes to the empty list.  (`zk_tcp::parser::parse_binary_format` does not
skip on a zero timestamp, see the counterexample.) -/
theorem c3_zero_timestamp_skipped (tzSingle : Date6 → Option Date6)
    (data : List Nat)
    (hz : ∀ c ∈ chunksExact 40 (data.drop 4), le32at c 27 = 0) :
    parse_attendance tzSingle data = [] := by
  unfold parse_attendance
  split
  · rfl
  · rw [List.filterMap_eq_nil_iff]
    intro c hc
    have h0 := hz c hc
    unfold parseRecordZk
    simp [h0]

/-- C3 counterexample: `zk_tcp::parser::parse_binary_format` (the record
decoder of the tokio client) emits a record for a 40-byte block whose
timestamp field is all zeros but whose user-id field is valid (`"20"`):
the result is dated 2000-01-01 00:00:00 instead of being skipped. -/
theorem c3_counterexample_parse_binary_format :
    le32at ([50, 48] ++ List.replicate 38 0) 24 = 0 ∧
    parse_binary_format (fun dt => some dt) ([50, 48] ++ List.replicate 38 0) =
      [⟨20, (2000, 1, 1, 0, 0, 0), 0, 0⟩] := by
  decide

/-- Witness for C5 at the repository's own test vector
(`CMD_CONNECT`, session 0, reply 0, empty body). -/
theorem c5_packet_roundtrip_checksum_witness :
    (1000 < 65536 ∧ 0 < 65536 ∧ 8 + ([] : List Nat).length < 4294967296) ∧
    parse_response (build_packet 1000 0 0 []) = .ok ⟨1000, 0, 0, []⟩ ∧
    le16at (build_packet 1000 0 0 []) 10 =
      calc_checksum (u16le 1000 ++ u16le 0 ++ u16le 0 ++ []) :=
  ⟨⟨by decide, by decide, by decide⟩,
    c5_packet_roundtrip_checksum 1000 0 0 [] (by decide) (by decide) (by decide)
      (by decide)⟩

/-- Witness for C4 at the repository's own test vector
2025-11-10 08:52:12 (packed `0x3189c93c`). -/
theorem c4_decode_zk_timestamp_formula_witness :
    (2000 ≤ 2025 ∧ 1 ≤ 11 ∧ 11 ≤ 12 ∧ 1 ≤ 10 ∧ 10 ≤ 31 ∧ 8 < 24 ∧ 52 < 60 ∧
      12 < 60 ∧ encode_zk_timestamp 2025 11 10 8 52 12 < 4294967296) ∧
    decode_zk_timestamp (encode_zk_timestamp 2025 11 10 8 52 12) =
      (2025, 11, 10, 8, 52, 12) :=
  ⟨⟨by decide, by decide, by decide, by decide, by decide, by decide, by decide,
      by decide, by decide⟩,
    (c4_decode_zk_timestamp_formula 2025 11 10 8 52 12 (by decide) (by decide)
      (by decide) (by decide) (by decide) (by decide) (by decide) (by decide)
      (by decide)).2.2⟩

/-- Witness for C3: a block of one 40-byte record with user id `"20"` and an
all-zero timestamp decodes to the empty list. -/
theorem c3_zero_timestamp_skipped_witness :
    (∀ c ∈ chunksExact 40
        ((List.replicate 4 0 ++ ([0, 0, 50, 48] ++ List.replicate 36 0)).drop 4),
      le32at c 27 = 0) ∧
    parse_attendance (fun dt => some dt)
      (List.replicate 4 0 ++ ([0, 0, 50, 48] ++ List.replicate 36 0)) = [] :=
  ⟨by decide,
    c3_zero_timestamp_skipped (fun dt => some dt)
      (List.replicate 4 0 ++ ([0, 0, 50, 48] ++ List.replicate 36 0))
      (by decide)⟩

/-! ## The synchronous client (`src/zk/client.rs`)

The socket is modelled by a `ZkNet`: the device's reply bytes form a fixed
incoming stream consumed by `read_exact` (a stream that runs out models a
read timeout / connection loss), writes append the written packet to a
trace and may be failed by a per-write oracle. -/

/-- Client state of `ZkTcpClient` (`src/zk/client.rs`): `session_id` and
`reply_id`. -/
structure ZkSt where
  sessionId : Nat
  replyId : Nat
deriving DecidableEq, Repr

/-- The socket model for the synchronous client. -/
structure ZkNet where
  /-- Incoming bytes not yet consumed. -/
  stream : List Nat
  /-- Every packet handed to `write_all`, in order. -/
  sentZ : List (List Nat)
  /-- Which write (by index) fails. -/
  wfails : Nat → Bool
  /-- Writes performed so far. -/
  wcount : Nat

/-- `stream.write_all(&packet)` with the write-failure oracle.  The packet
is recorded in the trace even when the write fails (it was attempted). -/
def zkWriteAll (p : List Nat) (n : ZkNet) : Except ZkError Unit × ZkNet :=
  let n' := { n with sentZ := n.sentZ ++ [p], wcount := n.wcount + 1 }
  if n.wfails n.wcount then (.error .io, n') else (.ok (), n')

/-- `read_response` of `src/zk/client.rs`: `read_exact` an 8-byte header,
check the magic, `read_exact` the announced payload, and split the inner
packet; payloads under 8 bytes are rejected. -/
def zkReadResponse (n : ZkNet) : Except ZkError Response × ZkNet :=
  if n.stream.length < 8 then (.error .io, { n with stream := [] })
  else
    let header := n.stream.take 8
    if header.take 4 ≠ HEADER then
      (.error .invalidResponse, { n with stream := n.stream.drop 8 })
    else
      let payload_size := le32at header 4
      let rest := n.stream.drop 8
      if rest.length < payload_size then (.error .io, { n with stream := [] })
      else
        let payload := rest.take payload_size
        let n' := { n with stream := rest.drop payload_size }
        if payload.length ≥ 8 then
          (.ok ⟨le16at payload 0, le16at payload 4, le16at payload 6,
            payload.drop 8⟩, n')
        else (.error .invalidResponse, n')

/-- `send_command` of `src/zk/client.rs`: build, write (an unsent request
does not advance `reply_id`), then `reply_id = reply_id.wrapping_add(1)`,
then read one response. -/
def zkSendCommand (cmd : Nat) (data : List Nat) (st : ZkSt) (n : ZkNet) :
    Except ZkError Response × ZkSt × ZkNet :=
  match zkWriteAll (build_packet cmd st.sessionId st.replyId data) n with
  | (.error e, n1) => (.error e, st, n1)
  | (.ok _, n1) =>
    let st1 := { st with replyId := (st.replyId + 1) % 65536 }
    match zkReadResponse n1 with
    | (.error e, n2) => (.error e, st1, n2)
    | (.ok r, n2) => (.ok r, st1, n2)

/-- `ZkTcpClient::connect` (`src/zk/client.rs`), starting after the TCP
socket is open: fresh state `{session_id: 0, reply_id: 0}`, send
`CMD_CONNECT` with an empty body, then adopt the reply's `session_id`
(inner-payload bytes 4–5). -/
def zkConnect (n : ZkNet) : Except ZkError ZkSt × ZkNet :=
  let st0 : ZkSt := ⟨0, 0⟩
  match zkSendCommand CMD_CONNECT [] st0 n with
  | (.error e, _, n1) => (.error e, n1)
  | (.ok r, st1, n1) => (.ok { st1 with sessionId := r.session_id }, n1)

/-- A sequence of `send_command` calls (command, body), stopping at the
first failure. -/
def zkSendN (cmds : List (Nat × List Nat)) (st : ZkSt) (n : ZkNet) :
    Except ZkError Unit × ZkSt × ZkNet :=
  match cmds with
  | [] => (.ok (), st, n)
  | (c, d) :: rest =>
    match zkSendCommand c d st n with
    | (.error e, st1, n1) => (.error e, st1, n1)
    | (.ok _, st1, n1) => zkSendN rest st1 n1

theorem zkSendCommand_replyId (cmd : Nat) (data : List Nat) (st : ZkSt)
    (n : ZkNet) (r : Response) (st' : ZkSt) (n' : ZkNet)
    (h : zkSendCommand cmd data st n = (.ok r, st', n')) :
    st'.replyId = (st.replyId + 1) % 65536 ∧ st'.sessionId = st.sessionId := by
  unfold zkSendCommand at h
  rcases hw : zkWriteAll (build_packet cmd st.sessionId st.replyId data) n with
    ⟨res, n1⟩
  rw [hw] at h
  cases res with
  | error e => simp at h
  | ok u =>
    simp only at h
    rcases hr : zkReadResponse n1 with ⟨res2, n2⟩
    rw [hr] at h
    cases res2 with
    | error e => simp at h
    | ok r2 =>
      simp only [Prod.mk.injEq] at h
      obtain ⟨-, h2, -⟩ := h
      rw [← h2]
      exact ⟨rfl, rfl⟩

theorem zkSendN_replyId (cmds : List (Nat × List Nat)) (st : ZkSt) (n : ZkNet)
    (st' : ZkSt) (n' : ZkNet)
    (h : zkSendN cmds st n = (.ok (), st', n')) :
    st'.replyId = (st.replyId + cmds.length) % 65536 ∨
      (cmds = [] ∧ st' = st) := by
  induction cmds generalizing st n with
  | nil =>
    right
    unfold zkSendN at h
    simp only [Prod.mk.injEq] at h
    exact ⟨rfl, h.2.1.symm⟩
  | cons cd rest ih =>
    left
    unfold zkSendN at h
    rcases hs : zkSendCommand cd.1 cd.2 st n with ⟨res, st1, n1⟩
    rw [hs] at h
    cases res with
    | error e => simp at h
    | ok r =>
      simp only at h
      have h1 := (zkSendCommand_replyId _ _ _ _ _ _ _ hs).1
      rcases ih st1 n1 h with h2 | ⟨hrest, hst⟩
      · rw [h2, h1]
        simp only [List.length_cons]
        omega
      · subst hrest
        rw [hst, h1]
        simp

/-- C9: a fresh session starts with sequence counter 0 (`ZkSt ⟨sid, 0⟩`),
every successful `send_command` advances it by exactly 1 wrapping modulo
65536, and after `N` consecutive successful calls it equals `N % 65536`. -/
theorem c9_sequence_counter :
    (∀ cmd data st n r st' n',
      zkSendCommand cmd data st n = (.ok r, st', n') →
        st'.replyId = (st.replyId + 1) % 65536) ∧
    (∀ (cmds : List (Nat × List Nat)) (sid : Nat) (n : ZkNet) st' n',
      zkSendN cmds ⟨sid, 0⟩ n = (.ok (), st', n') →
        st'.replyId = cmds.length % 65536) := by
  refine ⟨fun cmd data st n r st' n' h =>
    (zkSendCommand_replyId cmd data st n r st' n' h).1, ?_⟩
  intro cmds sid n st' n' h
  rcases zkSendN_replyId cmds ⟨sid, 0⟩ n st' n' h with h1 | ⟨h1, h2⟩
  · simpa using h1
  · subst h1
    rw [h2]
    simp

/-- A well-formed 16-byte ACK-OK reply frame (code 2000, session 7). -/
def ackFrame : List Nat :=
  HEADER ++ u32le 8 ++ (u16le 2000 ++ [0, 0] ++ u16le 7 ++ u16le 0)

/-- Witness for C9: two consecutive successful `send_command` calls on a
fresh session leave the counter at `2 % 65536`. -/
theorem c9_sequence_counter_witness :
    (zkSendN [(1000, []), (1001, [])] ⟨0, 0⟩
        ⟨ackFrame ++ ackFrame, [], fun _ => false, 0⟩).1 = .ok () ∧
    (zkSendN [(1000, []), (1001, [])] ⟨0, 0⟩
        ⟨ackFrame ++ ackFrame, [], fun _ => false, 0⟩).2.1.replyId =
      ([(1000, ([] : List Nat)), (1001, [])].length) % 65536 := by
  have h1 : (zkSendN [(1000, []), (1001, [])] ⟨0, 0⟩
      ⟨ackFrame ++ ackFrame, [], fun _ => false, 0⟩).1 = .ok () := by rfl
  refine ⟨h1, c9_sequence_counter.2 [(1000, []), (1001, [])] 0
    ⟨ackFrame ++ ackFrame, [], fun _ => false, 0⟩
    (zkSendN [(1000, []), (1001, [])] ⟨0, 0⟩
      ⟨ackFrame ++ ackFrame, [], fun _ => false, 0⟩).2.1
    (zkSendN [(1000, []), (1001, [])] ⟨0, 0⟩
      ⟨ackFrame ++ ackFrame, [], fun _ => false, 0⟩).2.2 ?_⟩
  rw [← h1]

/-! ## The tokio client (`src/zk_tcp/*`)

Its I/O primitives (`write_packet`, `read_response`, `read_raw_data` of
`src/zk_tcp/io.rs`) are modelled by an oracle with one result stream per
primitive, indexed by call count:

* a write either succeeds or fails with an error;
* a frame read either fails or produces the inner payload of a frame that
  passed the framing checks of `read_response` (magic, size limit,
  `read_exact`); `read_response` keeps only the response code, the data
  after the 8-byte inner header, and `tcp_length`, which for a fully read
  frame always equals the payload length — payloads under 8 bytes are
  rejected here, as in `read_response`;
* a raw read either fails or produces at most the requested bytes
  (`read_raw_data` truncates to what arrived).

Every packet handed to a write is appended to the `sent` trace (attempted
sends are recorded even if the write then fails). -/

/-- The error kinds of `AppError` used by the `zk_tcp` code
(`src/error.rs`; message strings dropped). -/
inductive AppError
  | tcpConnectionFailed
  | deviceTimeout
  | tcpProtocolError
  | parseError
deriving DecidableEq, Repr

/-- `TcpResponse` of `src/zk_tcp/types.rs`. -/
structure TcpResponseM where
  code : Nat
  data : List Nat
  tcp_length : Nat
deriving DecidableEq, Repr

/-- The device/environment oracle. -/
structure Oracle where
  /-- Outcome of the `i`-th `write_packet` (`none` = success). -/
  writeRes : Nat → Option AppError
  /-- Outcome of the `i`-th `read_response`: an injected failure, or the
  inner payload of the received frame. -/
  readRes : Nat → Except AppError (List Nat)
  /-- Outcome of the `i`-th `read_raw_data`. -/
  rawRes : Nat → Except AppError (List Nat)

/-- Socket-side state: call counters and the trace of written packets. -/
structure NetState where
  w : Nat
  r : Nat
  raw : Nat
  sent : List (List Nat)
deriving DecidableEq, Repr

/-- `write_packet` of `src/zk_tcp/io.rs`. -/
def writePacket (o : Oracle) (p : List Nat) (s : NetState) :
    Except AppError Unit × NetState :=
  let s' := { s with w := s.w + 1, sent := s.sent ++ [p] }
  match o.writeRes s.w with
  | none => (.ok (), s')
  | some e => (.error e, s')

/-- `read_response` of `src/zk_tcp/io.rs` at the oracle level: the payload
splits into code (bytes 0–1) and data (bytes 8+); `tcp_length` equals the
payload length since `read_exact` reads exactly the announced length. -/
def readResponseO (o : Oracle) (s : NetState) :
    Except AppError TcpResponseM × NetState :=
  let s' := { s with r := s.r + 1 }
  match o.readRes s.r with
  | .error e => (.error e, s')
  | .ok payload =>
    if payload.length < 8 then (.error .tcpProtocolError, s')
    else (.ok ⟨le16at payload 0, payload.drop 8, payload.length⟩, s')

/-- `read_raw_data` of `src/zk_tcp/io.rs`: delivers at most `size` bytes. -/
def readRawData (o : Oracle) (size : Nat) (s : NetState) :
    Except AppError (List Nat) × NetState :=
  let s' := { s with raw := s.raw + 1 }
  match o.rawRes s.raw with
  | .error e => (.error e, s')
  | .ok bs => (.ok (bs.take size), s')

/-- `calculate_checksum` of `src/zk_tcp/protocol.rs` (same arithmetic as
`calc_checksum` of `src/zk/protocol.rs`, release semantics of `sum += val`
on `u32`). -/
def calculate_checksum (data : List Nat) : Nat := calc_checksum data

/-- `build_packet` of `src/zk_tcp/protocol.rs`: the checksum is computed over
`packet[8..]` (with a zero placeholder in the checksum slot) and written into
bytes 10–11.  The `reply_id` increment is handled by `buildStep`. -/
def build_packet_tcp (command : Nat) (data : List Nat) (session_id : Nat)
    (reply_id : Nat) : List Nat :=
  let payload_len := PAYLOAD_MIN_SIZE + data.length
  let packet := HEADER ++ u32le payload_len ++ u16le command ++ [0, 0] ++
    u16le session_id ++ u16le reply_id ++ data
  let checksum := calculate_checksum (packet.drop 8)
  (packet.set 10 (checksum % 256)).set 11 (checksum / 256 % 256)

/-- The `*reply_id = reply_id.wrapping_add(1)` step of `build_packet`
(`src/zk_tcp/protocol.rs`): returns the built packet and the new reply id. -/
def buildStep (command : Nat) (data : List Nat) (session_id : Nat)
    (reply_id : Nat) : List Nat × Nat :=
  (build_packet_tcp command data session_id reply_id, (reply_id + 1) % 65536)

/-- Command code of a built packet (inner bytes 0–1 = packet bytes 8–9). -/
def cmdOf (p : List Nat) : Nat := le16at p 8

/-- Number of trace packets carrying command code `c`. -/
def countCmd (c : Nat) (l : List (List Nat)) : Nat :=
  (l.filter (fun p => cmdOf p = c)).length

/-- Client state of `ZkTcpClient` (`src/zk_tcp/client.rs`); `connected`
models `stream.is_some()`. -/
structure ClientState where
  connected : Bool
  session_id : Nat
  reply_id : Nat
deriving DecidableEq, Repr

/-- `send_command_full` of `src/zk_tcp/client.rs`: build the packet (this
already advances `reply_id`), check the stream, write, read one response. -/
def sendCommandFull (o : Oracle) (command : Nat) (data : List Nat)
    (c : ClientState) (s : NetState) :
    Except AppError TcpResponseM × ClientState × NetState :=
  if c.connected = false then
    (.error .tcpConnectionFailed,
      { c with reply_id := (buildStep command data c.session_id c.reply_id).2 }, s)
  else
    match writePacket o (buildStep command data c.session_id c.reply_id).1 s with
    | (.error e, s1) =>
      (.error e,
        { c with reply_id := (buildStep command data c.session_id c.reply_id).2 }, s1)
    | (.ok _, s1) =>
      match readResponseO o s1 with
      | (.error e, s2) =>
        (.error e,
          { c with reply_id := (buildStep command data c.session_id c.reply_id).2 }, s2)
      | (.ok r, s2) =>
        (.ok r,
          { c with reply_id := (buildStep command data c.session_id c.reply_id).2 }, s2)

/-- `send_command` of `src/zk_tcp/client.rs`: on success, rebuild a
payload-shaped buffer from the response code, a zero checksum placeholder,
the client's **own** `session_id`, `reply_id.wrapping_sub(1)` and the data. -/
def sendCommand (o : Oracle) (command : Nat) (data : List Nat)
    (c : ClientState) (s : NetState) :
    Except AppError (List Nat) × ClientState × NetState :=
  match sendCommandFull o command data c s with
  | (.error e, c1, s1) => (.error e, c1, s1)
  | (.ok r, c1, s1) =>
    (.ok (u16le r.code ++ [0, 0] ++ u16le c1.session_id ++
      u16le ((c1.reply_id + 65535) % 65536) ++ r.data), c1, s1)

/-! ### Bulk transfer (`src/zk_tcp/transfer.rs`) -/

/-- `receive_tcp_data` of `src/zk_tcp/transfer.rs`: collect any bytes the
response already carried past its first 8 data bytes, raw-read the missing
remainder, then read (and discard) the trailing ACK frame — whose wrong code
is only logged, but whose transport failure propagates.  `receiveTcpFetch`
is the `if data.len() < size` block that assembles the body bytes. -/
def receiveTcpFetch (o : Oracle) (data0 : List Nat) (size : Nat)
    (s : NetState) : Except AppError (List Nat) × NetState :=
  if data0.length < size then
    match readRawData o (size - data0.length) s with
    | (.error e, s1) => (.error e, s1)
    | (.ok more, s1) => (.ok (data0 ++ more), s1)
  else (.ok data0, s)

/-- Continuation of `receive_tcp_data`: after the body bytes are assembled,
read the trailing ACK frame. -/
def receive_tcp_data (o : Oracle) (resp : TcpResponseM) (size : Nat)
    (s : NetState) : Except AppError (List Nat) × NetState :=
  match receiveTcpFetch o
      (if resp.data.length > 8 then resp.data.drop 8 else []) size s with
  | (.error e, s1) => (.error e, s1)
  | (.ok d, s1) =>
    match readResponseO o s1 with
    | (.error e, s2) => (.error e, s2)
    | (.ok _ack, s2) => (.ok d, s2)

/-- `receive_chunk` of `src/zk_tcp/transfer.rs`: `CMD_DATA` delivers the
chunk (raw-reading any missing tail); `CMD_PREPARE_DATA` extracts the size
(`get_data_size_from_response`) and pulls the body off the socket; any other
code yields `none` (the caller's retry case). -/
def receive_chunk (o : Oracle) (resp : TcpResponseM) (s : NetState) :
    Except AppError (Option (List Nat)) × NetState :=
  if resp.code = CMD_DATA then
    if resp.data.length < resp.tcp_length - PAYLOAD_MIN_SIZE then
      match readRawData o
          (resp.tcp_length - PAYLOAD_MIN_SIZE - resp.data.length) s with
      | (.error e, s1) => (.error e, s1)
      | (.ok more, s1) => (.ok (some (resp.data ++ more)), s1)
    else (.ok (some resp.data), s)
  else if resp.code = CMD_PREPARE_DATA then
    if 4 ≤ resp.data.length then
      match receive_tcp_data o resp (le32at resp.data 0) s with
      | (.error e, s1) => (.error e, s1)
      | (.ok d, s1) => (.ok (some d), s1)
    else (.error .tcpProtocolError, s)
  else (.ok none, s)

/-- The `for retry in 0..3` loop of `read_chunk`
(`src/zk_tcp/transfer.rs`): each attempt replays the `CMD_READ_BUFFER`
command (a fresh packet, same body); transport errors propagate through `?`
without another attempt; an unexpected response code (`receive_chunk`
returning `none`) consumes one attempt; exhausting the attempts is the
typed fatal `TcpProtocolError`. -/
def readChunkAttempts (o : Oracle) :
    Nat → List Nat → Nat → Nat → NetState →
      Except AppError (List Nat) × Nat × NetState
  | 0, _, _, reply, s => (.error .tcpProtocolError, reply, s)
  | n + 1, cmd_data, session, reply, s =>
    match writePacket o (buildStep CMD_READ_BUFFER cmd_data session reply).1 s with
    | (.error e, s1) => (.error e, (reply + 1) % 65536, s1)
    | (.ok _, s1) =>
      match readResponseO o s1 with
      | (.error e, s2) => (.error e, (reply + 1) % 65536, s2)
      | (.ok resp, s2) =>
        match receive_chunk o resp s2 with
        | (.error e, s3) => (.error e, (reply + 1) % 65536, s3)
        | (.ok (some d), s3) => (.ok d, (reply + 1) % 65536, s3)
        | (.ok none, s3) =>
          readChunkAttempts o n cmd_data session ((reply + 1) % 65536) s3

/-- `read_chunk` of `src/zk_tcp/transfer.rs`: body is
`pack('<ii', start, size)`; 3 bounded attempts. -/
def read_chunk (o : Oracle) (start size session reply : Nat) (s : NetState) :
    Except AppError (List Nat) × Nat × NetState :=
  readChunkAttempts o 3 (u32le start ++ u32le size) session reply s

/-- The `for i in 0..packets` full-chunk loop of `read_with_buffer`. -/
def chunkLoop (o : Oracle) :
    Nat → Nat → Nat → Nat → NetState → List Nat →
      Except AppError (List Nat) × Nat × NetState
  | 0, _, _, reply, s, acc => (.ok acc, reply, s)
  | n + 1, start, session, reply, s, acc =>
    match read_chunk o start MAX_CHUNK session reply s with
    | (.error e, r1, s1) => (.error e, r1, s1)
    | (.ok ch, r1, s1) => chunkLoop o n (start + MAX_CHUNK) session r1 s1 (acc ++ ch)

/-- Which exit `read_with_buffer` took (recorded for the theorems; it does
not influence the computation). -/
inductive RwbPath
  | direct
  | zeroSize
  | chunked
  | failed
deriving DecidableEq, Repr

/-- `read_with_buffer` of `src/zk_tcp/transfer.rs`: send `CMD_PREPARE_BUFFER`
with body `{1, command as i16, fct=0, ext=0}`; a `CMD_DATA` reply delivers
the data directly (raw-reading any missing tail); otherwise the reply is
the prepare acknowledgement with the 4-byte total size at data offset 1;
then full chunks and the remainder are fetched via `read_chunk`, and only
this chunked exit issues `CMD_FREE_DATA` (both its write and read results
are ignored). -/
def prepareBufferBody (command : Nat) : List Nat :=
  1 :: (u16le command ++ u32le 0 ++ u32le 0)

/-- The trailing-remainder read of `read_with_buffer` (`if remain > 0`). -/
def readRemainder (o : Oracle) (packets remain session r2 : Nat)
    (s3 : NetState) (acc : List Nat) :
    Except AppError (List Nat) × Nat × NetState :=
  if 0 < remain then
    match read_chunk o (packets * MAX_CHUNK) remain session r2 s3 with
    | (.error e, r3, s4) => (.error e, r3, s4)
    | (.ok ch, r3, s4) => (.ok (acc ++ ch), r3, s4)
  else (.ok acc, r2, s3)

/-- The final free-data exchange of `read_with_buffer`: build and write a
`CMD_FREE_DATA` packet and read one reply, both results ignored; returns the
advanced reply id and the final socket state. -/
def freeDataStep (o : Oracle) (session r3 : Nat) (s4 : NetState) :
    Nat × NetState :=
  ((buildStep CMD_FREE_DATA [] session r3).2,
    (readResponseO o
      ((writePacket o (buildStep CMD_FREE_DATA [] session r3).1 s4).2)).2)

/-- The chunked tail of `read_with_buffer`: run the full-chunk loop, the
remainder, then the free-data exchange. -/
def rwbChunked (o : Oracle) (size session reply : Nat) (s2 : NetState) :
    Except AppError (List Nat) × RwbPath × Nat × NetState :=
  match chunkLoop o ((size - size % MAX_CHUNK) / MAX_CHUNK) 0 session reply
      s2 [] with
  | (.error e, r2, s3) => (.error e, .failed, r2, s3)
  | (.ok acc, r2, s3) =>
    match readRemainder o ((size - size % MAX_CHUNK) / MAX_CHUNK)
        (size % MAX_CHUNK) session r2 s3 acc with
    | (.error e, r3, s4) => (.error e, .failed, r3, s4)
    | (.ok dat, r3, s4) =>
      (.ok dat, .chunked, (freeDataStep o session r3 s4).1,
        (freeDataStep o session r3 s4).2)

def read_with_buffer (o : Oracle) (command session reply : Nat)
    (s : NetState) :
    Except AppError (List Nat) × RwbPath × Nat × NetState :=
  match writePacket o
      (buildStep CMD_PREPARE_BUFFER (prepareBufferBody command) session reply).1
      s with
  | (.error e, s1) => (.error e, .failed, (reply + 1) % 65536, s1)
  | (.ok _, s1) =>
    match readResponseO o s1 with
    | (.error e, s2) => (.error e, .failed, (reply + 1) % 65536, s2)
    | (.ok resp, s2) =>
      if resp.code = CMD_DATA then
        if resp.data.length < resp.tcp_length - PAYLOAD_MIN_SIZE then
          match readRawData o
              (resp.tcp_length - PAYLOAD_MIN_SIZE - resp.data.length) s2 with
          | (.error e, s3) => (.error e, .failed, (reply + 1) % 65536, s3)
          | (.ok more, s3) =>
            (.ok (resp.data ++ more), .direct, (reply + 1) % 65536, s3)
        else (.ok resp.data, .direct, (reply + 1) % 65536, s2)
      else if resp.data.length < 5 then
        (.error .tcpProtocolError, .failed, (reply + 1) % 65536, s2)
      else if le32at resp.data 1 = 0 then
        (.ok [], .zeroSize, (reply + 1) % 65536, s2)
      else
        rwbChunked o (le32at resp.data 1) session ((reply + 1) % 65536) s2

/-! ### Client operations (`src/zk_tcp/client.rs`) -/

/-- `ZkTcpClient::connect` (`src/zk_tcp/client.rs`), starting after the TCP
socket is open (`stream = Some ..`): send `CMD_CONNECT` with an empty body
through `send_command`, then read the "session id" from bytes 4–5 of the
**reconstructed** response (which hold the client's own previous
`session_id`, not the device's reply), guarded by `response.len() >= 6`. -/
def connectTcp (o : Oracle) (c : ClientState) (s : NetState) :
    Except AppError Unit × ClientState × NetState :=
  match sendCommand o CMD_CONNECT [] { c with connected := true } s with
  | (.error e, c1, s1) => (.error e, c1, s1)
  | (.ok resp, c1, s1) =>
    if 6 ≤ resp.length then
      (.ok (), { c1 with session_id := le16at resp 4 }, s1)
    else (.error .tcpProtocolError, c1, s1)

/-- Result of `download_attendance`, with the outcome of the bulk-transfer
phase recorded (`none` when the phase was never reached). -/
structure DownloadOut (α : Type) where
  result : Except AppError α
  transfer : Option (Except AppError (List Nat) × RwbPath)
  client : ClientState
  net : NetState

/-- `ZkTcpClient::download_attendance` (`src/zk_tcp/client.rs`), with the
final `parse_attendance_data` call abstracted as `parse`: require a
connection, send `CMD_DISABLEDEVICE`, run the bulk transfer; on its failure
send `CMD_FREE_DATA` then `CMD_ENABLEDEVICE` (results ignored) and return
the transfer's error; on success send `CMD_ENABLEDEVICE` (result ignored)
and return `parse data`. -/
def download_attendance {α : Type} (o : Oracle)
    (parse : List Nat → Except AppError α) (c : ClientState) (s : NetState) :
    DownloadOut α :=
  if c.connected = false then ⟨.error .tcpConnectionFailed, none, c, s⟩
  else
    match sendCommand o CMD_DISABLEDEVICE [] c s with
    | (.error e, c1, s1) => ⟨.error e, none, c1, s1⟩
    | (.ok _, c1, s1) =>
      match read_with_buffer o CMD_ATTLOG_RRQ c1.session_id c1.reply_id s1 with
      | (.error e, path, r2, s2) =>
        match sendCommand o CMD_FREE_DATA [] { c1 with reply_id := r2 } s2 with
        | (_, c3, s3) =>
          match sendCommand o CMD_ENABLEDEVICE [] c3 s3 with
          | (_, c4, s4) => ⟨.error e, some (.error e, path), c4, s4⟩
      | (.ok dat, path, r2, s2) =>
        match sendCommand o CMD_ENABLEDEVICE [] { c1 with reply_id := r2 } s2 with
        | (_, c4, s4) => ⟨parse dat, some (.ok dat, path), c4, s4⟩

/-! ### Trace lemmas -/

/-- Checksum stored by `build_packet_tcp` (over `packet[8..]` with the
zeroed placeholder, which contributes nothing to the word sum). -/
def tcpChecksum (command : Nat) (data : List Nat) (session_id reply_id : Nat) :
    Nat :=
  calculate_checksum ((HEADER ++ u32le (PAYLOAD_MIN_SIZE + data.length) ++
    u16le command ++ [0, 0] ++ u16le session_id ++ u16le reply_id ++
    data).drop 8)

theorem build_packet_tcp_bytes (command : Nat) (data : List Nat)
    (session reply : Nat) :
    build_packet_tcp command data session reply =
      0x50 :: 0x50 :: 0x82 :: 0x7d ::
      ((8 + data.length) % 256) :: ((8 + data.length) / 256 % 256) ::
      ((8 + data.length) / 65536 % 256) :: ((8 + data.length) / 16777216 % 256) ::
      (command % 256) :: (command / 256 % 256) ::
      (tcpChecksum command data session reply % 256) ::
      (tcpChecksum command data session reply / 256 % 256) ::
      (session % 256) :: (session / 256 % 256) ::
      (reply % 256) :: (reply / 256 % 256) :: data := by
  simp [build_packet_tcp, tcpChecksum, u16le, u32le, HEADER, PAYLOAD_MIN_SIZE,
    List.set]

theorem cmdOf_build_packet_tcp (command : Nat) (data : List Nat)
    (session reply : Nat) (h : command < 65536) :
    cmdOf (build_packet_tcp command data session reply) = command := by
  rw [build_packet_tcp_bytes]
  simp only [cmdOf, le16at, List.getD_cons_succ, List.getD_cons_zero]
  omega

/-- Body of a built packet (everything after the 16 header bytes). -/
def bodyOf (p : List Nat) : List Nat := p.drop 16

theorem bodyOf_build_packet_tcp (command : Nat) (data : List Nat)
    (session reply : Nat) :
    bodyOf (build_packet_tcp command data session reply) = data := by
  rw [build_packet_tcp_bytes]
  rfl

theorem readResponseO_sent (o : Oracle) (s : NetState) :
    ((readResponseO o s).2).sent = s.sent := by
  unfold readResponseO
  rcases h : o.readRes s.r with e | p <;> simp [h]
  split <;> rfl

theorem readRawData_sent (o : Oracle) (size : Nat) (s : NetState) :
    ((readRawData o size s).2).sent = s.sent := by
  unfold readRawData
  rcases h : o.rawRes s.raw with e | p <;> simp [h]

theorem writePacket_sent (o : Oracle) (p : List Nat) (s : NetState) :
    ((writePacket o p s).2).sent = s.sent ++ [p] := by
  unfold writePacket
  rcases h : o.writeRes s.w with - | e <;> simp [h]

theorem receiveTcpFetch_sent (o : Oracle) (data0 : List Nat) (size : Nat)
    (s : NetState) : ((receiveTcpFetch o data0 size s).2).sent = s.sent := by
  unfold receiveTcpFetch
  split
  · rcases hr : readRawData o (size - data0.length) s with ⟨res, s1⟩
    have h := readRawData_sent o (size - data0.length) s
    rw [hr] at h
    cases res <;> simpa using h
  · rfl

theorem receive_tcp_data_sent (o : Oracle) (resp : TcpResponseM) (size : Nat)
    (s : NetState) : ((receive_tcp_data o resp size s).2).sent = s.sent := by
  unfold receive_tcp_data
  rcases hf : receiveTcpFetch o
      (if resp.data.length > 8 then resp.data.drop 8 else []) size s with ⟨res, s1⟩
  have h1 : s1.sent = s.sent := by
    have h := receiveTcpFetch_sent o
      (if resp.data.length > 8 then resp.data.drop 8 else []) size s
    rw [hf] at h
    exact h
  cases res with
  | error e => exact h1
  | ok d =>
    dsimp only
    rcases hr : readResponseO o s1 with ⟨res2, s2⟩
    have h2 : s2.sent = s1.sent := by
      have h := readResponseO_sent o s1
      rw [hr] at h
      exact h
    cases res2 <;> simp [h2, h1]

theorem receive_chunk_sent (o : Oracle) (resp : TcpResponseM) (s : NetState) :
    ((receive_chunk o resp s).2).sent = s.sent := by
  unfold receive_chunk
  split
  · split
    · rcases hr : readRawData o
          (resp.tcp_length - PAYLOAD_MIN_SIZE - resp.data.length) s with ⟨res, s1⟩
      have h := readRawData_sent o
        (resp.tcp_length - PAYLOAD_MIN_SIZE - resp.data.length) s
      rw [hr] at h
      cases res <;> simpa using h
    · rfl
  · split
    · split
      · rcases ht : receive_tcp_data o resp (le32at resp.data 0) s with ⟨res, s1⟩
        have h := receive_tcp_data_sent o resp (le32at resp.data 0) s
        rw [ht] at h
        cases res <;> simpa using h
      · rfl
    · rfl

theorem countCmd_append (c : Nat) (a b : List (List Nat)) :
    countCmd c (a ++ b) = countCmd c a + countCmd c b := by
  simp [countCmd, List.filter_append]

theorem countCmd_eq_zero (c : Nat) (Δ : List (List Nat))
    (h : ∀ p ∈ Δ, cmdOf p ≠ c) : countCmd c Δ = 0 := by
  simp only [countCmd, List.length_eq_zero, List.filter_eq_nil_iff,
    decide_eq_true_eq]
  exact h

theorem readChunkAttempts_sent (o : Oracle) (n : Nat) (cmd_data : List Nat)
    (session : Nat) (reply : Nat) (s : NetState) :
    ∃ Δ, ((readChunkAttempts o n cmd_data session reply s).2.2).sent =
        s.sent ++ Δ ∧
      ∀ p ∈ Δ, cmdOf p = CMD_READ_BUFFER := by
  induction n generalizing reply s with
  | zero => exact ⟨[], by simp [readChunkAttempts], by simp⟩
  | succ n ih =>
    unfold readChunkAttempts
    rcases hw : writePacket o
        (buildStep CMD_READ_BUFFER cmd_data session reply).1 s with ⟨resw, s1⟩
    have hws : s1.sent =
        s.sent ++ [(buildStep CMD_READ_BUFFER cmd_data session reply).1] := by
      have h := writePacket_sent o
        (buildStep CMD_READ_BUFFER cmd_data session reply).1 s
      rw [hw] at h
      exact h
    have hcmd : cmdOf (buildStep CMD_READ_BUFFER cmd_data session reply).1 =
        CMD_READ_BUFFER :=
      cmdOf_build_packet_tcp CMD_READ_BUFFER cmd_data session reply (by decide)
    cases resw with
    | error e =>
      exact ⟨[(buildStep CMD_READ_BUFFER cmd_data session reply).1], hws,
        by simpa using hcmd⟩
    | ok u =>
      dsimp only
      rcases hr : readResponseO o s1 with ⟨resr, s2⟩
      have hrs : s2.sent = s1.sent := by
        have h := readResponseO_sent o s1
        rw [hr] at h
        exact h
      cases resr with
      | error e =>
        refine ⟨[(buildStep CMD_READ_BUFFER cmd_data session reply).1], ?_,
          by simpa using hcmd⟩
        simp [hrs, hws]
      | ok resp =>
        dsimp only
        rcases hc : receive_chunk o resp s2 with ⟨resc, s3⟩
        have hcs : s3.sent = s2.sent := by
          have h := receive_chunk_sent o resp s2
          rw [hc] at h
          exact h
        cases resc with
        | error e =>
          refine ⟨[(buildStep CMD_READ_BUFFER cmd_data session reply).1], ?_,
            by simpa using hcmd⟩
          simp [hcs, hrs, hws]
        | ok od =>
          cases od with
          | some d =>
            refine ⟨[(buildStep CMD_READ_BUFFER cmd_data session reply).1], ?_,
              by simpa using hcmd⟩
            simp [hcs, hrs, hws]
          | none =>
            obtain ⟨Δ', h1, h2⟩ := ih ((reply + 1) % 65536) s3
            refine ⟨[(buildStep CMD_READ_BUFFER cmd_data session reply).1] ++ Δ',
              ?_, ?_⟩
            · rw [h1, hcs, hrs, hws, List.append_assoc]
            · intro p hp
              rcases List.mem_append.1 hp with hp1 | hp2
              · simpa [List.mem_singleton.1 hp1] using hcmd
              · exact h2 p hp2

theorem read_chunk_sent (o : Oracle) (start size session reply : Nat)
    (s : NetState) :
    ∃ Δ, ((read_chunk o start size session reply s).2.2).sent = s.sent ++ Δ ∧
      ∀ p ∈ Δ, cmdOf p = CMD_READ_BUFFER :=
  readChunkAttempts_sent o 3 (u32le start ++ u32le size) session reply s

theorem chunkLoop_sent (o : Oracle) (n : Nat) (start session reply : Nat)
    (s : NetState) (acc : List Nat) :
    ∃ Δ, ((chunkLoop o n start session reply s acc).2.2).sent = s.sent ++ Δ ∧
      ∀ p ∈ Δ, cmdOf p = CMD_READ_BUFFER := by
  induction n generalizing start reply s acc with
  | zero => exact ⟨[], by simp [chunkLoop], by simp⟩
  | succ n ih =>
    unfold chunkLoop
    rcases hc : read_chunk o start MAX_CHUNK session reply s with ⟨res, r1, s1⟩
    obtain ⟨Δ1, h1, h2⟩ := read_chunk_sent o start MAX_CHUNK session reply s
    rw [hc] at h1
    cases res with
    | error e => exact ⟨Δ1, h1, h2⟩
    | ok ch =>
      obtain ⟨Δ2, h3, h4⟩ := ih (start + MAX_CHUNK) r1 s1 (acc ++ ch)
      refine ⟨Δ1 ++ Δ2, ?_, ?_⟩
      · rw [h3, h1, List.append_assoc]
      · intro p hp
        rcases List.mem_append.1 hp with hp1 | hp2
        · exact h2 p hp1
        · exact h4 p hp2

theorem readRemainder_sent (o : Oracle) (packets remain session r2 : Nat)
    (s : NetState) (acc : List Nat) :
    ∃ Δ, ((readRemainder o packets remain session r2 s acc).2.2).sent =
        s.sent ++ Δ ∧
      ∀ p ∈ Δ, cmdOf p = CMD_READ_BUFFER := by
  unfold readRemainder
  split
  · rcases hc : read_chunk o (packets * MAX_CHUNK) remain session r2 s with
      ⟨res, r3, s4⟩
    obtain ⟨Δ1, h1, h2⟩ := read_chunk_sent o (packets * MAX_CHUNK) remain
      session r2 s
    rw [hc] at h1
    cases res with
    | error e => exact ⟨Δ1, h1, h2⟩
    | ok ch => exact ⟨Δ1, h1, h2⟩
  · exact ⟨[], by simp, by simp⟩

theorem freeDataStep_sent (o : Oracle) (session r3 : Nat) (s : NetState) :
    ((freeDataStep o session r3 s).2).sent =
      s.sent ++ [(buildStep CMD_FREE_DATA [] session r3).1] := by
  unfold freeDataStep
  rw [readResponseO_sent, writePacket_sent]

theorem rwbChunked_sent (o : Oracle) (size session reply : Nat) (s : NetState)
    (res : Except AppError (List Nat)) (path : RwbPath) (r' : Nat)
    (s' : NetState) (h : rwbChunked o size session reply s = (res, path, r', s')) :
    ∃ Δ, s'.sent = s.sent ++ Δ ∧
      (∀ p ∈ Δ, cmdOf p = CMD_READ_BUFFER ∨ cmdOf p = CMD_FREE_DATA) ∧
      countCmd CMD_FREE_DATA Δ = (if path = RwbPath.chunked then 1 else 0) ∧
      (∀ e', res = Except.error e' → path = RwbPath.failed) := by
  unfold rwbChunked at h
  rcases hc : chunkLoop o ((size - size % MAX_CHUNK) / MAX_CHUNK) 0 session
      reply s [] with ⟨res1, r2, s3⟩
  rw [hc] at h
  obtain ⟨Δ1, h1, h2⟩ := chunkLoop_sent o ((size - size % MAX_CHUNK) / MAX_CHUNK)
    0 session reply s []
  rw [hc] at h1
  cases res1 with
  | error e =>
    obtain ⟨rfl, rfl, rfl, rfl⟩ : res = .error e ∧ path = .failed ∧ r' = r2 ∧
        s' = s3 := by
      simpa [eq_comm] using h
    refine ⟨Δ1, h1, fun p hp => Or.inl (h2 p hp), ?_, fun e' _ => rfl⟩
    rw [if_neg (by simp)]
    exact countCmd_eq_zero _ _ (fun p hp => by simp [h2 p hp, CMD_READ_BUFFER,
      CMD_FREE_DATA])
  | ok acc =>
    dsimp only at h
    rcases hr : readRemainder o ((size - size % MAX_CHUNK) / MAX_CHUNK)
        (size % MAX_CHUNK) session r2 s3 acc with ⟨res2, r3, s4⟩
    rw [hr] at h
    obtain ⟨Δ2, h3, h4⟩ := readRemainder_sent o
      ((size - size % MAX_CHUNK) / MAX_CHUNK) (size % MAX_CHUNK) session r2 s3 acc
    rw [hr] at h3
    cases res2 with
    | error e =>
      obtain ⟨rfl, rfl, rfl, rfl⟩ : res = .error e ∧ path = .failed ∧ r' = r3 ∧
          s' = s4 := by
        simpa [eq_comm] using h
      refine ⟨Δ1 ++ Δ2, by rw [h3, h1, List.append_assoc], ?_, ?_,
        fun e' _ => rfl⟩
      · intro p hp
        rcases List.mem_append.1 hp with hp1 | hp2
        · exact Or.inl (h2 p hp1)
        · exact Or.inl (h4 p hp2)
      · rw [if_neg (by simp)]
        refine countCmd_eq_zero _ _ (fun p hp => ?_)
        rcases List.mem_append.1 hp with hp1 | hp2
        · simp [h2 p hp1, CMD_READ_BUFFER, CMD_FREE_DATA]
        · simp [h4 p hp2, CMD_READ_BUFFER, CMD_FREE_DATA]
    | ok dat =>
      dsimp only at h
      obtain ⟨rfl, rfl, rfl, rfl⟩ : res = .ok dat ∧ path = .chunked ∧
          r' = (freeDataStep o session r3 s4).1 ∧
          s' = (freeDataStep o session r3 s4).2 := by
        simpa [eq_comm, Prod.ext_iff] using h
      have hfree := freeDataStep_sent o session r3 s4
      refine ⟨Δ1 ++ Δ2 ++ [(buildStep CMD_FREE_DATA [] session r3).1], ?_, ?_, ?_,
        fun e' he' => by cases he'⟩
      · rw [hfree, h3, h1]
        simp [List.append_assoc]
      · intro p hp
        rcases List.mem_append.1 hp with hp1 | hp2
        · rcases List.mem_append.1 hp1 with hp3 | hp4
          · exact Or.inl (h2 p hp3)
          · exact Or.inl (h4 p hp4)
        · rw [List.mem_singleton.1 hp2]
          exact Or.inr (cmdOf_build_packet_tcp CMD_FREE_DATA [] session r3
            (by decide))
      · rw [if_pos rfl, countCmd_append, countCmd_append]
        rw [countCmd_eq_zero _ _ (fun p hp => by
            simp [h2 p hp, CMD_READ_BUFFER, CMD_FREE_DATA]),
          countCmd_eq_zero _ _ (fun p hp => by
            simp [h4 p hp, CMD_READ_BUFFER, CMD_FREE_DATA])]
        simp [countCmd, cmdOf_build_packet_tcp CMD_FREE_DATA [] session r3
          (by decide), buildStep]

/-- Trace of one `read_with_buffer` run: only `CMD_PREPARE_BUFFER`,
`CMD_READ_BUFFER` and `CMD_FREE_DATA` packets are written, and a
`CMD_FREE_DATA` packet is written exactly once on the chunked exit and
never on the other exits. -/
theorem read_with_buffer_sent (o : Oracle) (command session reply : Nat)
    (s : NetState) (res : Except AppError (List Nat)) (path : RwbPath)
    (r' : Nat) (s' : NetState)
    (h : read_with_buffer o command session reply s = (res, path, r', s')) :
    ∃ Δ, s'.sent = s.sent ++ Δ ∧
      (∀ p ∈ Δ, cmdOf p = CMD_PREPARE_BUFFER ∨ cmdOf p = CMD_READ_BUFFER ∨
        cmdOf p = CMD_FREE_DATA) ∧
      countCmd CMD_FREE_DATA Δ = (if path = RwbPath.chunked then 1 else 0) ∧
      (∀ e', res = Except.error e' → path = RwbPath.failed) := by
  unfold read_with_buffer at h
  rcases hw : writePacket o
      (buildStep CMD_PREPARE_BUFFER (prepareBufferBody command) session reply).1
      s with ⟨resw, s1⟩
  rw [hw] at h
  have hws : s1.sent = s.sent ++
      [(buildStep CMD_PREPARE_BUFFER (prepareBufferBody command) session reply).1] := by
    have h0 := writePacket_sent o
      (buildStep CMD_PREPARE_BUFFER (prepareBufferBody command) session reply).1 s
    rw [hw] at h0
    exact h0
  have hcmd : cmdOf
      (buildStep CMD_PREPARE_BUFFER (prepareBufferBody command) session reply).1 =
      CMD_PREPARE_BUFFER :=
    cmdOf_build_packet_tcp CMD_PREPARE_BUFFER (prepareBufferBody command)
      session reply (by decide)
  have honly : ∀ p ∈ [(buildStep CMD_PREPARE_BUFFER (prepareBufferBody command)
      session reply).1], cmdOf p = CMD_PREPARE_BUFFER ∨
      cmdOf p = CMD_READ_BUFFER ∨ cmdOf p = CMD_FREE_DATA := by
    intro p hp
    rw [List.mem_singleton.1 hp]
    exact Or.inl hcmd
  have hzero : countCmd CMD_FREE_DATA
      [(buildStep CMD_PREPARE_BUFFER (prepareBufferBody command) session
        reply).1] = 0 :=
    countCmd_eq_zero _ _ (fun p hp => by
      rw [List.mem_singleton.1 hp, hcmd]
      decide)
  cases resw with
  | error e =>
    obtain ⟨rfl, rfl, rfl, rfl⟩ : res = .error e ∧ path = .failed ∧
        r' = (reply + 1) % 65536 ∧ s' = s1 := by
      simpa [eq_comm] using h
    exact ⟨_, hws, honly, by rw [if_neg (by simp)]; exact hzero,
      fun e' _ => rfl⟩
  | ok u =>
    dsimp only at h
    rcases hr : readResponseO o s1 with ⟨resr, s2⟩
    rw [hr] at h
    have hrs : s2.sent = s1.sent := by
      have h0 := readResponseO_sent o s1
      rw [hr] at h0
      exact h0
    cases resr with
    | error e =>
      obtain ⟨rfl, rfl, rfl, rfl⟩ : res = .error e ∧ path = .failed ∧
          r' = (reply + 1) % 65536 ∧ s' = s2 := by
        simpa [eq_comm] using h
      exact ⟨_, by rw [hrs, hws], honly,
        by rw [if_neg (by simp)]; exact hzero, fun e' _ => rfl⟩
    | ok resp =>
      dsimp only at h
      by_cases hcode : resp.code = CMD_DATA
      · rw [if_pos hcode] at h
        by_cases hlen : resp.data.length < resp.tcp_length - PAYLOAD_MIN_SIZE
        · rw [if_pos hlen] at h
          rcases hraw : readRawData o
              (resp.tcp_length - PAYLOAD_MIN_SIZE - resp.data.length) s2 with
            ⟨resraw, s3⟩
          rw [hraw] at h
          have hraws : s3.sent = s2.sent := by
            have h0 := readRawData_sent o
              (resp.tcp_length - PAYLOAD_MIN_SIZE - resp.data.length) s2
            rw [hraw] at h0
            exact h0
          cases resraw with
          | error e =>
            obtain ⟨rfl, rfl, rfl, rfl⟩ : res = .error e ∧ path = .failed ∧
                r' = (reply + 1) % 65536 ∧ s' = s3 := by
              simpa [eq_comm] using h
            exact ⟨_, by rw [hraws, hrs, hws], honly,
              by rw [if_neg (by simp)]; exact hzero, fun e' _ => rfl⟩
          | ok more =>
            obtain ⟨rfl, rfl, rfl, rfl⟩ : res = .ok (resp.data ++ more) ∧
                path = .direct ∧ r' = (reply + 1) % 65536 ∧ s' = s3 := by
              simpa [eq_comm] using h
            exact ⟨_, by rw [hraws, hrs, hws], honly,
              by rw [if_neg (by simp)]; exact hzero, fun e' he' => by cases he'⟩
        · rw [if_neg hlen] at h
          obtain ⟨rfl, rfl, rfl, rfl⟩ : res = .ok resp.data ∧ path = .direct ∧
              r' = (reply + 1) % 65536 ∧ s' = s2 := by
            simpa [eq_comm] using h
          exact ⟨_, by rw [hrs, hws], honly,
            by rw [if_neg (by simp)]; exact hzero, fun e' he' => by cases he'⟩
      · rw [if_neg hcode] at h
        by_cases hlen5 : resp.data.length < 5
        · rw [if_pos hlen5] at h
          obtain ⟨rfl, rfl, rfl, rfl⟩ : res = .error .tcpProtocolError ∧
              path = .failed ∧ r' = (reply + 1) % 65536 ∧ s' = s2 := by
            simpa [eq_comm] using h
          exact ⟨_, by rw [hrs, hws], honly,
            by rw [if_neg (by simp)]; exact hzero, fun e' _ => rfl⟩
        · rw [if_neg hlen5] at h
          by_cases hsz : le32at resp.data 1 = 0
          · rw [if_pos hsz] at h
            obtain ⟨rfl, rfl, rfl, rfl⟩ : res = .ok [] ∧ path = .zeroSize ∧
                r' = (reply + 1) % 65536 ∧ s' = s2 := by
              simpa [eq_comm] using h
            exact ⟨_, by rw [hrs, hws], honly,
              by rw [if_neg (by simp)]; exact hzero, fun e' he' => by cases he'⟩
          · rw [if_neg hsz] at h
            obtain ⟨Δc, hc1, hc2, hc3, hc4⟩ := rwbChunked_sent o
              (le32at resp.data 1) session ((reply + 1) % 65536) s2 res path
              r' s' h
            refine ⟨[(buildStep CMD_PREPARE_BUFFER (prepareBufferBody command)
                session reply).1] ++ Δc, ?_, ?_, ?_, hc4⟩
            · rw [hc1, hrs, hws, List.append_assoc]
            · intro p hp
              rcases List.mem_append.1 hp with hp1 | hp2
              · exact honly p hp1
              · rcases hc2 p hp2 with h5 | h5
                · exact Or.inr (Or.inl h5)
                · exact Or.inr (Or.inr h5)
            · rw [countCmd_append, hzero, hc3, Nat.zero_add]

/-- A connected `send_command` writes exactly its one built packet. -/
theorem sendCommand_sent (o : Oracle) (command : Nat) (data : List Nat)
    (c : ClientState) (s : NetState) (h : c.connected = true) :
    ((sendCommand o command data c s).2.2).sent =
      s.sent ++ [build_packet_tcp command data c.session_id c.reply_id] := by
  unfold sendCommand sendCommandFull
  rw [h]
  simp only [Bool.true_eq_false, if_false]
  rcases hw : writePacket o
      (buildStep command data c.session_id c.reply_id).1 s with ⟨resw, s1⟩
  have hws : s1.sent =
      s.sent ++ [(buildStep command data c.session_id c.reply_id).1] := by
    have h0 := writePacket_sent o
      (buildStep command data c.session_id c.reply_id).1 s
    rw [hw] at h0
    exact h0
  cases resw with
  | error e => exact hws
  | ok u =>
    dsimp only
    rcases hr : readResponseO o s1 with ⟨resr, s2⟩
    have hrs : s2.sent = s1.sent := by
      have h0 := readResponseO_sent o s1
      rw [hr] at h0
      exact h0
    cases resr <;> simp [hrs, hws, buildStep]

/-- `send_command` always leaves the client with the same `connected` and
`session_id` and the reply id advanced once (the advance happens in
`build_packet`, before the write). -/
theorem sendCommandFull_client (o : Oracle) (command : Nat) (data : List Nat)
    (c : ClientState) (s : NetState) :
    (sendCommandFull o command data c s).2.1 =
      { c with reply_id := (c.reply_id + 1) % 65536 } := by
  unfold sendCommandFull
  split
  · rfl
  · rcases hw : writePacket o
        (buildStep command data c.session_id c.reply_id).1 s with ⟨resw, s1⟩
    cases resw with
    | error e => rfl
    | ok u =>
      dsimp only
      rcases hr : readResponseO o s1 with ⟨resr, s2⟩
      cases resr <;> rfl

theorem sendCommand_client (o : Oracle) (command : Nat) (data : List Nat)
    (c : ClientState) (s : NetState) :
    (sendCommand o command data c s).2.1 =
      { c with reply_id := (c.reply_id + 1) % 65536 } := by
  unfold sendCommand
  rcases hf : sendCommandFull o command data c s with ⟨resf, c1, s1⟩
  have h := sendCommandFull_client o command data c s
  rw [hf] at h
  cases resf <;> simpa using h

theorem countCmd_singleton (c : Nat) (p : List Nat) :
    countCmd c [p] = if cmdOf p = c then 1 else 0 := by
  simp only [countCmd, List.filter_singleton]
  split <;> simp_all

/-- C1: whenever `download_attendance` reaches the bulk-transfer phase, a
`CMD_ENABLEDEVICE` packet is written exactly once, it is the last packet
written, and the call's result is determined by the transfer outcome alone
(the transfer error propagates unchanged; the cleanup sends — whatever the
oracle decides about them — never replace it). -/
theorem c1_enable_device_bracket {α : Type} (o : Oracle)
    (parse : List Nat → Except AppError α) (c : ClientState) (s : NetState)
    (r : Except AppError (List Nat)) (path : RwbPath)
    (hc : c.connected = true)
    (ht : (download_attendance o parse c s).transfer = some (r, path)) :
    countCmd CMD_ENABLEDEVICE ((download_attendance o parse c s).net).sent =
      countCmd CMD_ENABLEDEVICE s.sent + 1 ∧
    (∃ p, ((download_attendance o parse c s).net).sent.getLast? = some p ∧
      cmdOf p = CMD_ENABLEDEVICE) ∧
    (∀ e, r = .error e → (download_attendance o parse c s).result = .error e) ∧
    (∀ d, r = .ok d → (download_attendance o parse c s).result = parse d) := by
  unfold download_attendance at ht ⊢
  rw [hc] at ht ⊢
  simp only [Bool.true_eq_false, if_false] at ht ⊢
  rcases hd : sendCommand o CMD_DISABLEDEVICE [] c s with ⟨resd, c1, s1⟩
  have hc1 : c1 = { c with reply_id := (c.reply_id + 1) % 65536 } := by
    have h0 := sendCommand_client o CMD_DISABLEDEVICE [] c s
    rw [hd] at h0
    exact h0
  have hs1 : s1.sent = s.sent ++
      [build_packet_tcp CMD_DISABLEDEVICE [] c.session_id c.reply_id] := by
    have h0 := sendCommand_sent o CMD_DISABLEDEVICE [] c s hc
    rw [hd] at h0
    exact h0
  cases resd with
  | error e =>
    rw [hd] at ht
    simp at ht
  | ok resp0 =>
    rw [hd] at ht
    dsimp only at ht ⊢
    rcases hw : read_with_buffer o CMD_ATTLOG_RRQ c1.session_id c1.reply_id s1
      with ⟨resw, pathw, r2, s2⟩
    rw [hw] at ht
    obtain ⟨Δ, hΔ, honly, -, -⟩ := read_with_buffer_sent o CMD_ATTLOG_RRQ
      c1.session_id c1.reply_id s1 resw pathw r2 s2 hw
    have hnoenable : countCmd CMD_ENABLEDEVICE Δ = 0 :=
      countCmd_eq_zero _ _ (fun p hp => by
        rcases honly p hp with h5 | h5 | h5 <;>
          simp [h5, CMD_PREPARE_BUFFER, CMD_READ_BUFFER, CMD_FREE_DATA,
            CMD_ENABLEDEVICE])
    cases resw with
    | error e =>
      dsimp only at ht ⊢
      obtain ⟨rfl, rfl⟩ : Except.error e = r ∧ pathw = path := by
        simpa using ht
      rcases h3 : sendCommand o CMD_FREE_DATA [] { c1 with reply_id := r2 } s2
        with ⟨res3, c3, s3⟩
      dsimp only
      rcases h4 : sendCommand o CMD_ENABLEDEVICE [] c3 s3 with ⟨res4, c4, s4⟩
      dsimp only
      have hs3 : s3.sent = s2.sent ++
          [build_packet_tcp CMD_FREE_DATA [] c1.session_id r2] := by
        have h0 := sendCommand_sent o CMD_FREE_DATA [] { c1 with reply_id := r2 }
          s2 (by rw [hc1]; exact hc)
        rw [h3] at h0
        exact h0
      have hc3 : c3 = { c1 with reply_id := (r2 + 1) % 65536 } := by
        have h0 := sendCommand_client o CMD_FREE_DATA [] { c1 with reply_id := r2 } s2
        rw [h3] at h0
        exact h0
      have hs4 : s4.sent = s3.sent ++
          [build_packet_tcp CMD_ENABLEDEVICE [] c3.session_id c3.reply_id] := by
        have h0 := sendCommand_sent o CMD_ENABLEDEVICE [] c3 s3
          (by rw [hc3, hc1]; exact hc)
        rw [h4] at h0
        exact h0
      refine ⟨?_, ?_, ?_, ?_⟩
      · rw [hs4, hs3, hΔ, hs1]
        simp only [countCmd_append, countCmd_singleton,
          cmdOf_build_packet_tcp CMD_DISABLEDEVICE [] c.session_id c.reply_id
            (by decide),
          cmdOf_build_packet_tcp CMD_FREE_DATA [] c1.session_id r2 (by decide),
          cmdOf_build_packet_tcp CMD_ENABLEDEVICE [] c3.session_id c3.reply_id
            (by decide), hnoenable]
        norm_num [CMD_DISABLEDEVICE, CMD_ENABLEDEVICE, CMD_FREE_DATA]
      · refine ⟨build_packet_tcp CMD_ENABLEDEVICE [] c3.session_id c3.reply_id,
          ?_, cmdOf_build_packet_tcp CMD_ENABLEDEVICE [] c3.session_id
            c3.reply_id (by decide)⟩
        rw [hs4, List.getLast?_append_cons]
        rfl
      · intro e' he'
        cases he'
        rfl
      · intro d hd'
        cases hd'
    | ok dat =>
      dsimp only at ht ⊢
      obtain ⟨rfl, rfl⟩ : Except.ok dat = r ∧ pathw = path := by
        simpa using ht
      rcases h4 : sendCommand o CMD_ENABLEDEVICE [] { c1 with reply_id := r2 } s2
        with ⟨res4, c4, s4⟩
      dsimp only
      have hs4 : s4.sent = s2.sent ++
          [build_packet_tcp CMD_ENABLEDEVICE [] c1.session_id r2] := by
        have h0 := sendCommand_sent o CMD_ENABLEDEVICE []
          { c1 with reply_id := r2 } s2 (by rw [hc1]; exact hc)
        rw [h4] at h0
        exact h0
      refine ⟨?_, ?_, ?_, ?_⟩
      · rw [hs4, hΔ, hs1]
        simp only [countCmd_append, countCmd_singleton,
          cmdOf_build_packet_tcp CMD_DISABLEDEVICE [] c.session_id c.reply_id
            (by decide),
          cmdOf_build_packet_tcp CMD_ENABLEDEVICE [] c1.session_id r2
            (by decide), hnoenable]
        norm_num [CMD_DISABLEDEVICE, CMD_ENABLEDEVICE]
      · refine ⟨build_packet_tcp CMD_ENABLEDEVICE [] c1.session_id r2, ?_,
          cmdOf_build_packet_tcp CMD_ENABLEDEVICE [] c1.session_id r2
            (by decide)⟩
        rw [hs4, List.getLast?_append_cons]
        rfl
      · intro e' he'
        cases he'
      · intro d hd'
        cases hd'
        rfl

/-- A device that always replies with a bare `CMD_ACK_OK` frame. -/
def oracleAck : Oracle :=
  ⟨fun _ => none, fun _ => .ok [0xD0, 0x07, 0, 0, 0, 0, 0, 0], fun _ => .ok []⟩

/-- A device that answers the prepare-buffer request (read #1) with a bare
`CMD_DATA` frame — the "data already complete" direct path — and everything
else with `CMD_ACK_OK`. -/
def oracleDirect : Oracle :=
  ⟨fun _ => none,
   fun n => if n = 1 then .ok [0xDD, 0x05, 0, 0, 0, 0, 0, 0]
            else .ok [0xD0, 0x07, 0, 0, 0, 0, 0, 0],
   fun _ => .ok []⟩

/-- Witness for C1: a transfer that fails at the prepare step still ends
with exactly one `CMD_ENABLEDEVICE` written. -/
theorem c1_enable_device_bracket_witness :
    (⟨true, 0, 0⟩ : ClientState).connected = true ∧
    (download_attendance oracleAck (fun d => Except.ok d) ⟨true, 0, 0⟩
        ⟨0, 0, 0, []⟩).transfer =
      some (Except.error AppError.tcpProtocolError, RwbPath.failed) ∧
    countCmd CMD_ENABLEDEVICE
        ((download_attendance oracleAck (fun d => Except.ok d) ⟨true, 0, 0⟩
          ⟨0, 0, 0, []⟩).net).sent =
      countCmd CMD_ENABLEDEVICE (⟨0, 0, 0, []⟩ : NetState).sent + 1 :=
  ⟨rfl, rfl,
    (c1_enable_device_bracket oracleAck (fun d => Except.ok d) ⟨true, 0, 0⟩
      ⟨0, 0, 0, []⟩ (Except.error AppError.tcpProtocolError) RwbPath.failed rfl
      rfl).1⟩

/-- C2 counterexample: a `download_attendance` run whose prepare reply
already carries all the data (`CMD_DATA` direct path) completes successfully
without a single `CMD_FREE_DATA` command ever being written. -/
theorem c2_counterexample_direct_path_no_free_data :
    (download_attendance oracleDirect (fun d => Except.ok d) ⟨true, 0, 0⟩
        ⟨0, 0, 0, []⟩).transfer = some (Except.ok [], RwbPath.direct) ∧
    (download_attendance oracleDirect (fun d => Except.ok d) ⟨true, 0, 0⟩
        ⟨0, 0, 0, []⟩).result = Except.ok [] ∧
    countCmd CMD_FREE_DATA
      ((download_attendance oracleDirect (fun d => Except.ok d) ⟨true, 0, 0⟩
        ⟨0, 0, 0, []⟩).net).sent = 0 :=
  ⟨rfl, rfl, by decide⟩

/-- C2 (amended): `CMD_FREE_DATA` is issued exactly once when the bulk
transfer fails (by `download_attendance`'s cleanup) and exactly once when it
succeeds through the chunked path (inside `read_with_buffer`); it is **not**
issued when the prepare reply already carried all the data (direct path) or
when the announced total size is zero. -/
theorem c2_free_data_paths {α : Type} (o : Oracle)
    (parse : List Nat → Except AppError α) (c : ClientState) (s : NetState)
    (r : Except AppError (List Nat)) (path : RwbPath)
    (hc : c.connected = true)
    (ht : (download_attendance o parse c s).transfer = some (r, path)) :
    ((∃ e, r = .error e) →
      countCmd CMD_FREE_DATA ((download_attendance o parse c s).net).sent =
        countCmd CMD_FREE_DATA s.sent + 1) ∧
    (path = RwbPath.chunked →
      countCmd CMD_FREE_DATA ((download_attendance o parse c s).net).sent =
        countCmd CMD_FREE_DATA s.sent + 1) ∧
    ((path = RwbPath.direct ∨ path = RwbPath.zeroSize) →
      countCmd CMD_FREE_DATA ((download_attendance o parse c s).net).sent =
        countCmd CMD_FREE_DATA s.sent) := by
  unfold download_attendance at ht ⊢
  rw [hc] at ht ⊢
  simp only [Bool.true_eq_false, if_false] at ht ⊢
  rcases hd : sendCommand o CMD_DISABLEDEVICE [] c s with ⟨resd, c1, s1⟩
  have hc1 : c1 = { c with reply_id := (c.reply_id + 1) % 65536 } := by
    have h0 := sendCommand_client o CMD_DISABLEDEVICE [] c s
    rw [hd] at h0
    exact h0
  have hs1 : s1.sent = s.sent ++
      [build_packet_tcp CMD_DISABLEDEVICE [] c.session_id c.reply_id] := by
    have h0 := sendCommand_sent o CMD_DISABLEDEVICE [] c s hc
    rw [hd] at h0
    exact h0
  cases resd with
  | error e =>
    rw [hd] at ht
    simp at ht
  | ok resp0 =>
    rw [hd] at ht
    dsimp only at ht ⊢
    rcases hw : read_with_buffer o CMD_ATTLOG_RRQ c1.session_id c1.reply_id s1
      with ⟨resw, pathw, r2, s2⟩
    rw [hw] at ht
    obtain ⟨Δ, hΔ, -, hfree, hfailed⟩ := read_with_buffer_sent o CMD_ATTLOG_RRQ
      c1.session_id c1.reply_id s1 resw pathw r2 s2 hw
    cases resw with
    | error e =>
      dsimp only at ht ⊢
      obtain ⟨rfl, rfl⟩ : Except.error e = r ∧ pathw = path := by
        simpa using ht
      have hpf : pathw = RwbPath.failed := hfailed e rfl
      rcases h3 : sendCommand o CMD_FREE_DATA [] { c1 with reply_id := r2 } s2
        with ⟨res3, c3, s3⟩
      dsimp only
      rcases h4 : sendCommand o CMD_ENABLEDEVICE [] c3 s3 with ⟨res4, c4, s4⟩
      dsimp only
      have hs3 : s3.sent = s2.sent ++
          [build_packet_tcp CMD_FREE_DATA [] c1.session_id r2] := by
        have h0 := sendCommand_sent o CMD_FREE_DATA [] { c1 with reply_id := r2 }
          s2 (by rw [hc1]; exact hc)
        rw [h3] at h0
        exact h0
      have hc3 : c3 = { c1 with reply_id := (r2 + 1) % 65536 } := by
        have h0 := sendCommand_client o CMD_FREE_DATA []
          { c1 with reply_id := r2 } s2
        rw [h3] at h0
        exact h0
      have hs4 : s4.sent = s3.sent ++
          [build_packet_tcp CMD_ENABLEDEVICE [] c3.session_id c3.reply_id] := by
        have h0 := sendCommand_sent o CMD_ENABLEDEVICE [] c3 s3
          (by rw [hc3, hc1]; exact hc)
        rw [h4] at h0
        exact h0
      have hcount : countCmd CMD_FREE_DATA s4.sent =
          countCmd CMD_FREE_DATA s.sent + 1 := by
        rw [hs4, hs3, hΔ, hs1]
        simp only [countCmd_append, countCmd_singleton,
          cmdOf_build_packet_tcp CMD_DISABLEDEVICE [] c.session_id c.reply_id
            (by decide),
          cmdOf_build_packet_tcp CMD_FREE_DATA [] c1.session_id r2 (by decide),
          cmdOf_build_packet_tcp CMD_ENABLEDEVICE [] c3.session_id c3.reply_id
            (by decide), hfree, hpf]
        norm_num [CMD_DISABLEDEVICE, CMD_ENABLEDEVICE, CMD_FREE_DATA]
        decide
      refine ⟨fun _ => hcount, fun hp => ?_, fun hp => ?_⟩
      · rw [hpf] at hp
        exact absurd hp (by decide)
      · rw [hpf] at hp
        rcases hp with hp | hp <;> exact absurd hp (by decide)
    | ok dat =>
      dsimp only at ht ⊢
      obtain ⟨rfl, rfl⟩ : Except.ok dat = r ∧ pathw = path := by
        simpa using ht
      rcases h4 : sendCommand o CMD_ENABLEDEVICE [] { c1 with reply_id := r2 } s2
        with ⟨res4, c4, s4⟩
      dsimp only
      have hs4 : s4.sent = s2.sent ++
          [build_packet_tcp CMD_ENABLEDEVICE [] c1.session_id r2] := by
        have h0 := sendCommand_sent o CMD_ENABLEDEVICE []
          { c1 with reply_id := r2 } s2 (by rw [hc1]; exact hc)
        rw [h4] at h0
        exact h0
      have hcount : countCmd CMD_FREE_DATA s4.sent =
          countCmd CMD_FREE_DATA s.sent +
            (if pathw = RwbPath.chunked then 1 else 0) := by
        rw [hs4, hΔ, hs1]
        simp only [countCmd_append, countCmd_singleton,
          cmdOf_build_packet_tcp CMD_DISABLEDEVICE [] c.session_id c.reply_id
            (by decide),
          cmdOf_build_packet_tcp CMD_ENABLEDEVICE [] c1.session_id r2
            (by decide), hfree]
        norm_num [CMD_DISABLEDEVICE, CMD_ENABLEDEVICE, CMD_FREE_DATA]
      refine ⟨?_, fun hp => ?_, fun hp => ?_⟩
      · rintro ⟨e, he⟩
        cases he
      · rw [hcount, if_pos hp]
      · have hnc : ¬ pathw = RwbPath.chunked := by
          rcases hp with hp | hp <;> simp [hp]
        rw [hcount, if_neg hnc]
        rfl

/-- Witness for C2 (amended): a failing transfer issues `CMD_FREE_DATA`
exactly once, via the error-cleanup branch of `download_attendance`. -/
theorem c2_free_data_paths_witness :
    (⟨true, 0, 0⟩ : ClientState).connected = true ∧
    (download_attendance oracleAck (fun d => Except.ok d) ⟨true, 0, 0⟩
        ⟨0, 0, 0, []⟩).transfer =
      some (Except.error AppError.tcpProtocolError, RwbPath.failed) ∧
    countCmd CMD_FREE_DATA
        ((download_attendance oracleAck (fun d => Except.ok d) ⟨true, 0, 0⟩
          ⟨0, 0, 0, []⟩).net).sent =
      countCmd CMD_FREE_DATA (⟨0, 0, 0, []⟩ : NetState).sent + 1 :=
  ⟨rfl, rfl,
    (c2_free_data_paths oracleAck (fun d => Except.ok d) ⟨true, 0, 0⟩
      ⟨0, 0, 0, []⟩ (Except.error AppError.tcpProtocolError) RwbPath.failed rfl
      rfl).1 ⟨AppError.tcpProtocolError, rfl⟩⟩

/-! ### C7: the bounded chunk-retry loop -/

theorem readChunkAttempts_step_unexpected (o : Oracle) (n : Nat)
    (cmd_data : List Nat) (session reply : Nat) (s : NetState)
    (payload : List Nat)
    (hw : o.writeRes s.w = none) (hr : o.readRes s.r = .ok payload)
    (hlen : 8 ≤ payload.length)
    (hcode1 : le16at payload 0 ≠ CMD_DATA)
    (hcode2 : le16at payload 0 ≠ CMD_PREPARE_DATA) :
    readChunkAttempts o (n + 1) cmd_data session reply s =
      readChunkAttempts o n cmd_data session ((reply + 1) % 65536)
        { s with
          w := s.w + 1
          r := s.r + 1
          sent := s.sent ++
            [(buildStep CMD_READ_BUFFER cmd_data session reply).1] } := by
  conv_lhs => rw [readChunkAttempts]
  unfold writePacket
  rw [hw]
  dsimp only
  unfold readResponseO
  dsimp only
  rw [hr]
  dsimp only
  rw [if_neg (by omega)]
  unfold receive_chunk
  dsimp only
  rw [if_neg hcode1, if_neg hcode2]

theorem readChunkAttempts_step_write_error (o : Oracle) (n : Nat)
    (cmd_data : List Nat) (session reply : Nat) (s : NetState) (e : AppError)
    (hw : o.writeRes s.w = some e) :
    readChunkAttempts o (n + 1) cmd_data session reply s =
      (.error e, (reply + 1) % 65536,
        { s with
          w := s.w + 1
          sent := s.sent ++
            [(buildStep CMD_READ_BUFFER cmd_data session reply).1] }) := by
  conv_lhs => rw [readChunkAttempts]
  unfold writePacket
  rw [hw]

theorem readChunkAttempts_step_read_error (o : Oracle) (n : Nat)
    (cmd_data : List Nat) (session reply : Nat) (s : NetState) (e : AppError)
    (hw : o.writeRes s.w = none) (hr : o.readRes s.r = .error e) :
    readChunkAttempts o (n + 1) cmd_data session reply s =
      (.error e, (reply + 1) % 65536,
        { s with
          w := s.w + 1
          r := s.r + 1
          sent := s.sent ++
            [(buildStep CMD_READ_BUFFER cmd_data session reply).1] }) := by
  conv_lhs => rw [readChunkAttempts]
  unfold writePacket
  rw [hw]
  dsimp only
  unfold readResponseO
  dsimp only
  rw [hr]

/-- C7: within one bulk transfer each chunk read is retried as a replay of
the `CMD_READ_BUFFER` command only when the reply carries an unexpected
response code; the loop is bounded at 3 attempts, whose exhaustion is the
typed fatal `TcpProtocolError` (which `read_with_buffer` propagates,
abandoning the transfer); transport-level write/read failures are returned
at once, after a single command send, with no retry. -/
theorem c7_chunk_retry_policy :
    (∀ (o : Oracle) (start size session reply : Nat) (s : NetState)
        (p : Nat → List Nat),
      (∀ k, k < 3 → o.writeRes (s.w + k) = none) →
      (∀ k, k < 3 → o.readRes (s.r + k) = .ok (p k)) →
      (∀ k, k < 3 → 8 ≤ (p k).length) →
      (∀ k, k < 3 → le16at (p k) 0 ≠ CMD_DATA ∧
        le16at (p k) 0 ≠ CMD_PREPARE_DATA) →
      (read_chunk o start size session reply s).1 =
        .error AppError.tcpProtocolError ∧
      ((read_chunk o start size session reply s).2.2).sent = s.sent ++
        [build_packet_tcp CMD_READ_BUFFER (u32le start ++ u32le size)
          session reply,
         build_packet_tcp CMD_READ_BUFFER (u32le start ++ u32le size)
          session ((reply + 1) % 65536),
         build_packet_tcp CMD_READ_BUFFER (u32le start ++ u32le size)
          session (((reply + 1) % 65536 + 1) % 65536)]) ∧
    (∀ (o : Oracle) (start size session reply : Nat) (s : NetState)
        (e : AppError),
      o.writeRes s.w = some e →
      (read_chunk o start size session reply s).1 = .error e ∧
      ((read_chunk o start size session reply s).2.2).sent = s.sent ++
        [build_packet_tcp CMD_READ_BUFFER (u32le start ++ u32le size)
          session reply]) ∧
    (∀ (o : Oracle) (start size session reply : Nat) (s : NetState)
        (e : AppError),
      o.writeRes s.w = none → o.readRes s.r = .error e →
      (read_chunk o start size session reply s).1 = .error e ∧
      ((read_chunk o start size session reply s).2.2).sent = s.sent ++
        [build_packet_tcp CMD_READ_BUFFER (u32le start ++ u32le size)
          session reply]) := by
  refine ⟨?_, ?_, ?_⟩
  · intro o start size session reply s p hw hr hlen hcode
    unfold read_chunk
    rw [readChunkAttempts_step_unexpected o 2 (u32le start ++ u32le size)
      session reply s (p 0) (by simpa using hw 0 (by norm_num))
      (by simpa using hr 0 (by norm_num)) (hlen 0 (by norm_num))
      (hcode 0 (by norm_num)).1 (hcode 0 (by norm_num)).2]
    rw [readChunkAttempts_step_unexpected o 1 (u32le start ++ u32le size)
      session ((reply + 1) % 65536) _ (p 1)
      (by simpa using hw 1 (by norm_num)) (by simpa using hr 1 (by norm_num))
      (hlen 1 (by norm_num)) (hcode 1 (by norm_num)).1
      (hcode 1 (by norm_num)).2]
    rw [readChunkAttempts_step_unexpected o 0 (u32le start ++ u32le size)
      session (((reply + 1) % 65536 + 1) % 65536) _ (p 2)
      (by simpa using hw 2 (by norm_num)) (by simpa using hr 2 (by norm_num))
      (hlen 2 (by norm_num)) (hcode 2 (by norm_num)).1
      (hcode 2 (by norm_num)).2]
    unfold readChunkAttempts
    exact ⟨rfl, by simp [buildStep]⟩
  · intro o start size session reply s e hw
    unfold read_chunk
    rw [readChunkAttempts_step_write_error o 2 (u32le start ++ u32le size)
      session reply s e hw]
    exact ⟨rfl, by simp [buildStep]⟩
  · intro o start size session reply s e hw hr
    unfold read_chunk
    rw [readChunkAttempts_step_read_error o 2 (u32le start ++ u32le size)
      session reply s e hw hr]
    exact ⟨rfl, by simp [buildStep]⟩

/-- Witness for C7: a device that keeps answering `CMD_ACK_OK` to
`CMD_READ_BUFFER` drives exactly 3 command replays and then the typed
protocol error. -/
theorem c7_chunk_retry_policy_witness :
    (read_chunk oracleAck 0 100 7 5 ⟨0, 0, 0, []⟩).1 =
      .error AppError.tcpProtocolError ∧
    ((read_chunk oracleAck 0 100 7 5 ⟨0, 0, 0, []⟩).2.2).sent = [] ++
      [build_packet_tcp CMD_READ_BUFFER (u32le 0 ++ u32le 100) 7 5,
       build_packet_tcp CMD_READ_BUFFER (u32le 0 ++ u32le 100) 7
        ((5 + 1) % 65536),
       build_packet_tcp CMD_READ_BUFFER (u32le 0 ++ u32le 100) 7
        (((5 + 1) % 65536 + 1) % 65536)] :=
  c7_chunk_retry_policy.1 oracleAck 0 100 7 5 ⟨0, 0, 0, []⟩
    (fun _ => [0xD0, 0x07, 0, 0, 0, 0, 0, 0]) (fun _ _ => rfl) (fun _ _ => rfl)
    (fun k _ => by show 8 ≤ (8 : Nat); decide)
    (fun k _ => by
      show le16at [0xD0, 0x07, 0, 0, 0, 0, 0, 0] 0 ≠ CMD_DATA ∧
        le16at [0xD0, 0x07, 0, 0, 0, 0, 0, 0] 0 ≠ CMD_PREPARE_DATA
      decide)

/-! ### C6: connect and the session id -/

theorem zkReadResponse_frame (payload rest : List Nat) (z : List (List Nat))
    (wf : Nat → Bool) (wc : Nat) (h8 : 8 ≤ payload.length)
    (h32 : payload.length < 4294967296) :
    zkReadResponse ⟨HEADER ++ u32le payload.length ++ payload ++ rest, z, wf, wc⟩ =
      (.ok ⟨le16at payload 0, le16at payload 4, le16at payload 6,
        payload.drop 8⟩, ⟨rest, z, wf, wc⟩) := by
  unfold zkReadResponse
  simp only [HEADER, u32le, List.cons_append, List.nil_append, List.length_cons,
    List.length_append]
  rw [if_neg (by omega)]
  simp only [List.take_succ_cons, List.take_zero, List.drop_succ_cons,
    List.drop_zero]
  rw [if_neg (by simp)]
  have hle : le32at (80 :: 80 :: 130 :: 125 :: (payload.length % 256) ::
      (payload.length / 256 % 256) :: (payload.length / 65536 % 256) ::
      (payload.length / 16777216 % 256) :: []) 4 = payload.length := by
    simp only [le32at, List.getD_cons_succ, List.getD_cons_zero]
    omega
  rw [hle]
  rw [if_neg (by simp [List.length_append])]
  rw [List.take_left, List.drop_left]
  rw [if_pos h8]

theorem zkReadResponse_short (payload : List Nat) (z : List (List Nat))
    (wf : Nat → Bool) (wc : Nat) (h8 : payload.length < 8) :
    zkReadResponse ⟨HEADER ++ u32le payload.length ++ payload, z, wf, wc⟩ =
      (.error .invalidResponse, ⟨[], z, wf, wc⟩) := by
  have h := zkReadResponse_frame payload [] z wf wc
  unfold zkReadResponse
  simp only [HEADER, u32le, List.cons_append, List.nil_append, List.length_cons,
    List.length_append]
  rw [if_neg (by omega)]
  simp only [List.take_succ_cons, List.take_zero, List.drop_succ_cons,
    List.drop_zero]
  rw [if_neg (by simp)]
  have hle : le32at (80 :: 80 :: 130 :: 125 :: (payload.length % 256) ::
      (payload.length / 256 % 256) :: (payload.length / 65536 % 256) ::
      (payload.length / 16777216 % 256) :: []) 4 = payload.length := by
    simp only [le32at, List.getD_cons_succ, List.getD_cons_zero]
    omega
  rw [hle]
  rw [if_neg (by omega)]
  rw [List.take_length, List.drop_length]
  rw [if_neg (by omega)]

/-- On success, the buffer `send_command` (of the tokio client) hands back
carries the client's **own** `session_id` at bytes 4–5. -/
theorem sendCommand_ok_echoes_own_session (o : Oracle) (command : Nat)
    (data : List Nat) (c : ClientState) (s : NetState) (resp : List Nat)
    (c' : ClientState) (s' : NetState)
    (h : sendCommand o command data c s = (.ok resp, c', s')) :
    le16at resp 4 = c.session_id % 256 + 256 * (c.session_id / 256 % 256) := by
  unfold sendCommand at h
  rcases hf : sendCommandFull o command data c s with ⟨resf, c1, s1⟩
  rw [hf] at h
  have hc1 := sendCommandFull_client o command data c s
  rw [hf] at hc1
  dsimp only at hc1
  cases resf with
  | error e => simp at h
  | ok r =>
    dsimp only at h
    obtain ⟨rfl, -, -⟩ : (u16le r.code ++ [0, 0] ++ u16le c1.session_id ++
        u16le ((c1.reply_id + 65535) % 65536) ++ r.data) = resp ∧ c1 = c' ∧
        s1 = s' := by
      simpa [Prod.ext_iff] using h
    rw [hc1]
    simp [le16at, u16le, List.getD_append, List.getD]

/-- C6 (amended): `connect` sends `CMD_CONNECT` with an empty body.  In the
compiled `zk::client` implementation the new session id is the
device-assigned value at reply-payload bytes 4–5, and a reply whose payload
is under 8 bytes is rejected with a protocol error.  In the orphaned
`zk_tcp::client` implementation the extraction reads the locally
reconstructed buffer, so a successful connect keeps the client's previous
`session_id` (0 for a fresh client) no matter what the device assigned. -/
theorem c6_connect_session_id (payload rest : List Nat) (wf : Nat → Bool)
    (h8 : 8 ≤ payload.length) (h32 : payload.length < 4294967296)
    (hwf : wf 0 = false) :
    zkConnect ⟨HEADER ++ u32le payload.length ++ payload ++ rest, [], wf, 0⟩ =
      (.ok ⟨le16at payload 4, 1⟩,
        ⟨rest, [build_packet CMD_CONNECT 0 0 []], wf, 1⟩) ∧
    (∀ (short : List Nat) (wf' : Nat → Bool), short.length < 8 → wf' 0 = false →
      (zkConnect ⟨HEADER ++ u32le short.length ++ short, [], wf', 0⟩).1 =
        .error ZkError.invalidResponse) ∧
    (∀ (o : Oracle) (c : ClientState) (s : NetState) (c' : ClientState)
        (s' : NetState), c.session_id < 65536 →
      connectTcp o c s = (.ok (), c', s') → c'.session_id = c.session_id) := by
  refine ⟨?_, ?_, ?_⟩
  · unfold zkConnect zkSendCommand zkWriteAll
    simp only [hwf, Bool.false_eq_true, if_false, List.nil_append]
    rw [zkReadResponse_frame payload rest [build_packet CMD_CONNECT 0 0 []]
      wf 1 h8 h32]
  · intro short wf' hshort hwf'
    unfold zkConnect zkSendCommand zkWriteAll
    simp only [hwf', Bool.false_eq_true, if_false, List.nil_append]
    rw [zkReadResponse_short short [build_packet CMD_CONNECT 0 0 []] wf' 1
      hshort]
  · intro o c s c' s' hsid h
    unfold connectTcp at h
    rcases hs : sendCommand o CMD_CONNECT [] { c with connected := true } s with
      ⟨res, c1, s1⟩
    rw [hs] at h
    cases res with
    | error e => simp at h
    | ok resp =>
      dsimp only at h
      have hecho := sendCommand_ok_echoes_own_session o CMD_CONNECT []
        { c with connected := true } s resp c1 s1 hs
      split at h
      · obtain ⟨rfl, -⟩ :
            { c1 with session_id := le16at resp 4 } = c' ∧ s1 = s' := by
          simpa [Prod.ext_iff] using h
        have : le16at resp 4 = c.session_id := by
          rw [hecho]
          dsimp only
          omega
        simp [this]
      · simp at h

/-- A device whose `CMD_CONNECT` reply carries the assigned session id
`0x1234` at inner-payload bytes 4–5 (and an empty body). -/
def oracleSession : Oracle :=
  ⟨fun _ => none, fun _ => .ok [0xD0, 0x07, 0, 0, 0x34, 0x12, 0, 0],
    fun _ => .ok []⟩

/-- C6 counterexample: `zk_tcp::client::connect` succeeds against a device
that assigned session id `0x1234` (at reply-payload bytes 4–5) — and with a
reply body of 0 bytes, i.e. under 6 — yet leaves the client's `session_id`
at 0: the extraction reads its own reconstructed buffer, and the length
guard never fires. -/
theorem c6_counterexample_session_id_ignored :
    le16at [0xD0, 0x07, 0, 0, 0x34, 0x12, 0, 0] 4 = 0x1234 ∧
    ([0xD0, 0x07, 0, 0, 0x34, 0x12, 0, 0] : List Nat).drop 8 = [] ∧
    (connectTcp oracleSession ⟨false, 0, 0⟩ ⟨0, 0, 0, []⟩).1 = .ok () ∧
    (connectTcp oracleSession ⟨false, 0, 0⟩ ⟨0, 0, 0, []⟩).2.1.session_id = 0 :=
  ⟨by decide, by decide, rfl, by decide⟩

/-- Witness for C6 (amended), at the same reply frame: the compiled
`zk::client::connect` adopts the device-assigned session id `0x1234`. -/
theorem c6_connect_session_id_witness :
    (8 ≤ ([0xD0, 0x07, 0, 0, 0x34, 0x12, 0, 0] : List Nat).length ∧
      ([0xD0, 0x07, 0, 0, 0x34, 0x12, 0, 0] : List Nat).length < 4294967296) ∧
    zkConnect ⟨HEADER ++
        u32le ([0xD0, 0x07, 0, 0, 0x34, 0x12, 0, 0] : List Nat).length ++
        [0xD0, 0x07, 0, 0, 0x34, 0x12, 0, 0] ++ [], [], (fun _ => false), 0⟩ =
      (.ok ⟨le16at [0xD0, 0x07, 0, 0, 0x34, 0x12, 0, 0] 4, 1⟩,
        ⟨[], [build_packet CMD_CONNECT 0 0 []], (fun _ => false), 1⟩) :=
  ⟨⟨by decide, by decide⟩,
    (c6_connect_session_id [0xD0, 0x07, 0, 0, 0x34, 0x12, 0, 0] []
      (fun _ => false) (by decide) (by decide) rfl).1⟩

/-! ### C8 / C10: the byte-level receive path (`src/zk_tcp/io.rs`)

`read_response` is modelled directly over the incoming byte stream; the
second component of the result is the number of bytes consumed from the
stream (8 header bytes, then the payload), which makes "rejects before
reading the payload" expressible. -/

/-- `read_response` of `src/zk_tcp/io.rs` over the raw byte stream
(`read_response_full` of `src/zk_tcp_client.rs` is the same logic):
read the 8-byte frame header, check the magic, enforce the 1,000,000-byte
safety limit **before** allocating or reading the payload, read the
payload, reject payloads under 8 bytes, and split code/data. -/
def readResponseIo (stream : List Nat) : Except AppError TcpResponseM × Nat :=
  if stream.length < 8 then (.error .deviceTimeout, 0)
  else if (stream.take 8).take 4 ≠ HEADER then (.error .tcpProtocolError, 8)
  else if 1000000 < le32at (stream.take 8) 4 then (.error .tcpProtocolError, 8)
  else if (stream.drop 8).length < le32at (stream.take 8) 4 then
    (.error .deviceTimeout, 8)
  else
    if ((stream.drop 8).take (le32at (stream.take 8) 4)).length < 8 then
      (.error .tcpProtocolError, 8 + le32at (stream.take 8) 4)
    else
      (.ok ⟨le16at ((stream.drop 8).take (le32at (stream.take 8) 4)) 0,
        ((stream.drop 8).take (le32at (stream.take 8) 4)).drop 8,
        le32at (stream.take 8) 4⟩, 8 + le32at (stream.take 8) 4)

theorem getD_take_lt (l : List Nat) (n i : Nat) (h : i < n) :
    (l.take n).getD i 0 = l.getD i 0 := by
  simp [List.getD, List.getElem?_take, h]

theorem getD_pre (a x : List Nat) (i : Nat) (h : i < a.length) :
    (a ++ x).getD i 0 = a.getD i 0 :=
  List.getD_append a x 0 i h

theorem le32at_pre (a x : List Nat) (ha : a.length = 10) :
    le32at (a ++ x) 4 = le32at a 4 := by
  unfold le32at
  rw [getD_pre a x 4 (by omega), getD_pre a x 5 (by omega),
    getD_pre a x 6 (by omega), getD_pre a x 7 (by omega)]

theorem take4_pre (a x : List Nat) (ha : a.length = 10) :
    (a ++ x).take 4 = a.take 4 := by
  rw [List.take_append_eq_append_take]
  simp [ha]

theorem drop8_pre (a x : List Nat) (ha : a.length = 10) :
    (a ++ x).drop 8 = a.drop 8 ++ x := by
  rw [List.drop_append_eq_append_drop]
  simp [ha]

/-- `parse_response` never inspects payload bytes 2–3 (the inner checksum
field): for `a` the 10 bytes before the checksum field and `b` the bytes
after it, the result is a function of `a` and `b` alone. -/
theorem parse_response_checksum_free (a b : List Nat) (c1 c2 : Nat)
    (ha : a.length = 10) :
    parse_response (a ++ [c1, c2] ++ b) =
      (if a.take 4 ≠ HEADER then .error .invalidResponse
       else if 12 + b.length < 8 + le32at a 4 then .error .invalidResponse
       else if le32at a 4 < 8 then .error .invalidResponse
       else .ok ⟨le16at (a.drop 8) 0, le16at b 0, le16at b 2,
         (b.drop 4).take (le32at a 4 - 8)⟩) := by
  rw [List.append_assoc]
  unfold parse_response
  have hxlen : ([c1, c2] ++ b).length = 2 + b.length := by
    simp
    omega
  have hlen : (a ++ ([c1, c2] ++ b)).length = 12 + b.length := by
    simp [ha]
    omega
  rw [hlen]
  rw [if_neg (by omega)]
  rw [take4_pre a _ ha, le32at_pre a _ ha]
  by_cases hmagic : a.take 4 ≠ HEADER
  · rw [if_pos hmagic, if_pos hmagic]
  · rw [if_neg hmagic, if_neg hmagic]
    by_cases hsz : 12 + b.length < 8 + le32at a 4
    · rw [if_pos hsz, if_pos hsz]
    · rw [if_neg hsz, if_neg hsz]
      rw [drop8_pre a _ ha]
      have ha2 : (a.drop 8).length = 2 := by simp [ha]
      have hplen : ((a.drop 8 ++ ([c1, c2] ++ b)).take (le32at a 4)).length =
          le32at a 4 := by
        simp only [List.length_take, List.length_append, ha2, hxlen]
        omega
      simp only [hplen]
      by_cases h8 : le32at a 4 < 8
      · rw [if_pos h8, if_pos h8]
      · rw [if_neg h8, if_neg h8]
        have hcmd : le16at ((a.drop 8 ++ ([c1, c2] ++ b)).take (le32at a 4)) 0 =
            le16at (a.drop 8) 0 := by
          unfold le16at
          rw [getD_take_lt _ _ _ (by omega), getD_take_lt _ _ _ (by omega),
            getD_pre _ _ 0 (by omega), getD_pre _ _ 1 (by omega)]
        have hsess : le16at ((a.drop 8 ++ ([c1, c2] ++ b)).take (le32at a 4)) 4 =
            le16at b 0 := by
          unfold le16at
          rw [getD_take_lt _ _ _ (by omega), getD_take_lt _ _ _ (by omega),
            List.getD_append_right _ _ _ _ (by simp [ha2]),
            List.getD_append_right _ _ _ _ (by simp [ha2]), ha2]
          norm_num
          simp [List.getElem?_append_right, ha2]
        have hrep : le16at ((a.drop 8 ++ ([c1, c2] ++ b)).take (le32at a 4)) 6 =
            le16at b 2 := by
          unfold le16at
          rw [getD_take_lt _ _ _ (by omega), getD_take_lt _ _ _ (by omega),
            List.getD_append_right _ _ _ _ (by simp [ha2]),
            List.getD_append_right _ _ _ _ (by simp [ha2]), ha2]
          norm_num
          simp [List.getElem?_append_right, ha2]
        have hdrop8 : (a.drop 8 ++ ([c1, c2] ++ b)).drop 8 = b.drop 4 := by
          rw [List.drop_append_eq_append_drop, ha2]
          have h1 : (a.drop 8).drop 8 = [] :=
            List.drop_eq_nil_of_le (by omega)
          rw [h1, List.drop_append_eq_append_drop]
          simp
        have hdata : ((a.drop 8 ++ ([c1, c2] ++ b)).take (le32at a 4)).drop 8 =
            (b.drop 4).take (le32at a 4 - 8) := by
          rw [List.drop_take, hdrop8]
        simp only [hcmd, hsess, hrep, hdata]

theorem le32at_take8 (l : List Nat) : le32at (l.take 8) 4 = le32at l 4 := by
  unfold le32at
  rw [getD_take_lt _ _ _ (by omega), getD_take_lt _ _ _ (by omega),
    getD_take_lt _ _ _ (by omega), getD_take_lt _ _ _ (by omega)]

/-- `read_response` never inspects payload bytes 2–3 (the inner checksum
field): for `a` the 10 bytes before the checksum field (8 frame-header
bytes plus the 2 command bytes) and `b` the bytes after it, the result is
a function of `a` and `b` alone. -/
theorem readResponseIo_checksum_free (a b : List Nat) (c1 c2 : Nat)
    (ha : a.length = 10) :
    readResponseIo (a ++ [c1, c2] ++ b) =
      (if a.take 4 ≠ HEADER then (.error .tcpProtocolError, 8)
       else if 1000000 < le32at a 4 then (.error .tcpProtocolError, 8)
       else if 4 + b.length < le32at a 4 then (.error .deviceTimeout, 8)
       else if le32at a 4 < 8 then (.error .tcpProtocolError, 8 + le32at a 4)
       else (.ok ⟨le16at (a.drop 8) 0,
         (b.drop 4).take (le32at a 4 - 8), le32at a 4⟩,
         8 + le32at a 4)) := by
  rw [List.append_assoc]
  unfold readResponseIo
  have hxlen : ([c1, c2] ++ b).length = 2 + b.length := by
    simp
    omega
  have hlen : (a ++ ([c1, c2] ++ b)).length = 12 + b.length := by
    simp [ha]
    omega
  rw [hlen, if_neg (by omega)]
  have htake8 : (a ++ ([c1, c2] ++ b)).take 8 = a.take 8 :=
    List.take_append_of_le_length (by omega)
  have hmin : min 4 8 = 4 := by norm_num
  rw [htake8, List.take_take, hmin, le32at_take8]
  rw [drop8_pre a _ ha]
  have ha2 : (a.drop 8).length = 2 := by simp [ha]
  have hdlen : (a.drop 8 ++ ([c1, c2] ++ b)).length = 4 + b.length := by
    simp [ha2, hxlen]
    omega
  rw [hdlen]
  by_cases hmagic : a.take 4 ≠ HEADER
  · rw [if_pos hmagic, if_pos hmagic]
  · rw [if_neg hmagic, if_neg hmagic]
    by_cases hbig : 1000000 < le32at a 4
    · rw [if_pos hbig, if_pos hbig]
    · rw [if_neg hbig, if_neg hbig]
      by_cases hsz : 4 + b.length < le32at a 4
      · rw [if_pos hsz, if_pos hsz]
      · rw [if_neg hsz, if_neg hsz]
        have hplen :
            ((a.drop 8 ++ ([c1, c2] ++ b)).take (le32at a 4)).length =
            le32at a 4 := by
          simp only [List.length_take, List.length_append, ha2, hxlen]
          omega
        rw [hplen]
        by_cases h8 : le32at a 4 < 8
        · rw [if_pos h8, if_pos h8]
        · rw [if_neg h8, if_neg h8]
          have hcmd :
              le16at ((a.drop 8 ++ ([c1, c2] ++ b)).take (le32at a 4)) 0 =
              le16at (a.drop 8) 0 := by
            unfold le16at
            rw [getD_take_lt _ _ _ (by omega), getD_take_lt _ _ _ (by omega),
              getD_pre _ _ 0 (by omega), getD_pre _ _ 1 (by omega)]
          have hdrop8 : (a.drop 8 ++ ([c1, c2] ++ b)).drop 8 = b.drop 4 := by
            rw [List.drop_append_eq_append_drop, ha2]
            have h1 : (a.drop 8).drop 8 = [] :=
              List.drop_eq_nil_of_le (by omega)
            rw [h1, List.drop_append_eq_append_drop]
            simp
          have hdata :
              ((a.drop 8 ++ ([c1, c2] ++ b)).take (le32at a 4)).drop 8 =
              (b.drop 4).take (le32at a 4 - 8) := by
            rw [List.drop_take, hdrop8]
          simp only [hcmd, hdata]

/-- C8: neither receive path validates the inner checksum. For any two
reply byte streams that agree everywhere except in the inner-packet
checksum field (stream bytes 10–11, i.e. payload bytes 2–3), the byte-level
`read_response` of `src/zk_tcp/io.rs` and the `parse_response` of
`src/zk/protocol.rs` each decode both streams to the very same result —
in particular a well-framed reply decodes to the same successful response
(same code, session, sequence and data) whatever the checksum bytes say. -/
theorem c8_receive_ignores_checksum (a b : List Nat) (c1 c2 c1' c2' : Nat)
    (ha : a.length = 10) :
    readResponseIo (a ++ [c1, c2] ++ b) =
      readResponseIo (a ++ [c1', c2'] ++ b) ∧
    parse_response (a ++ [c1, c2] ++ b) =
      parse_response (a ++ [c1', c2'] ++ b) :=
  ⟨by rw [readResponseIo_checksum_free a b c1 c2 ha,
      readResponseIo_checksum_free a b c1' c2' ha],
    by rw [parse_response_checksum_free a b c1 c2 ha,
      parse_response_checksum_free a b c1' c2' ha]⟩

/-- Witness for C8 at a concrete well-framed `ACK_OK` reply: corrupting the
checksum field from its correct value to `0x0000` changes neither decoder's
(successful) output. -/
theorem c8_receive_ignores_checksum_witness :
    (HEADER ++ u32le 8 ++ [0xD0, 0x07] : List Nat).length = 10 ∧
    readResponseIo
        ((HEADER ++ u32le 8 ++ [0xD0, 0x07]) ++ [0x17, 0xFC] ++ [0, 0, 1, 0]) =
      readResponseIo
        ((HEADER ++ u32le 8 ++ [0xD0, 0x07]) ++ [0, 0] ++ [0, 0, 1, 0]) ∧
    parse_response
        ((HEADER ++ u32le 8 ++ [0xD0, 0x07]) ++ [0x17, 0xFC] ++ [0, 0, 1, 0]) =
      parse_response
        ((HEADER ++ u32le 8 ++ [0xD0, 0x07]) ++ [0, 0] ++ [0, 0, 1, 0]) :=
  ⟨by decide,
    (c8_receive_ignores_checksum (HEADER ++ u32le 8 ++ [0xD0, 0x07])
      [0, 0, 1, 0] 0x17 0xFC 0 0 (by decide)).1,
    (c8_receive_ignores_checksum (HEADER ++ u32le 8 ++ [0xD0, 0x07])
      [0, 0, 1, 0] 0x17 0xFC 0 0 (by decide)).2⟩

/-- C10: whenever the 8-byte frame header carries the correct magic but
announces a payload length above 1,000,000 bytes, `read_response` of
`src/zk_tcp/io.rs` fails with `TcpProtocolError` having consumed exactly
the 8 header bytes — the payload is never read, whatever bytes (if any)
follow the header. `read_response_full` of `src/zk_tcp_client.rs` applies
the identical guard before its `vec![0u8; total_size]` allocation. -/
theorem c10_payload_length_limit (stream : List Nat)
    (h8 : 8 ≤ stream.length) (hmag : stream.take 4 = HEADER)
    (hbig : 1000000 < le32at stream 4) :
    readResponseIo stream = (.error .tcpProtocolError, 8) := by
  unfold readResponseIo
  have hmin : min 4 8 = 4 := by norm_num
  rw [if_neg (by omega), List.take_take, hmin, le32at_take8, hmag,
    if_neg (by simp), if_pos hbig]

/-- Witness for C10: a bare 8-byte header whose length field is
`0xFFFFFFFF` (the largest hostile prefix) is rejected at once. -/
theorem c10_payload_length_limit_witness :
    (8 ≤ ([0x50, 0x50, 0x82, 0x7D, 0xFF, 0xFF, 0xFF, 0xFF] : List Nat).length ∧
      ([0x50, 0x50, 0x82, 0x7D, 0xFF, 0xFF, 0xFF, 0xFF] : List Nat).take 4 =
        HEADER ∧
      1000000 < le32at [0x50, 0x50, 0x82, 0x7D, 0xFF, 0xFF, 0xFF, 0xFF] 4) ∧
    readResponseIo [0x50, 0x50, 0x82, 0x7D, 0xFF, 0xFF, 0xFF, 0xFF] =
      (.error .tcpProtocolError, 8) :=
  ⟨⟨by decide, by decide, by decide⟩,
    c10_payload_length_limit [0x50, 0x50, 0x82, 0x7D, 0xFF, 0xFF, 0xFF, 0xFF]
      (by decide) (by decide) (by decide)⟩

end ZkSpec
